import Mathlib

set_option allowUnsafeReducibility true
attribute [semireducible] Rat.mul Rat.add Rat.sub Rat.div Rat.inv Rat.neg Rat.blt Rat.normalize Rat.maybeNormalize

/-!
Verification model of the flutter flow compositor core found in this
repository: the `LayerStateStack` render-state stack, the layer tree
Preroll/Paint traversal for clip layers, and the `RasterCache`.

The repository ships the unit tests for these components
(`flow/layers/layer_state_stack_unittests.cc`,
`flow/layers/clip_rrect_layer_unittests.cc`, `flow/raster_cache_unittests.cc`)
together with `flow/layers/backdrop_filter_layer.cc`; the component
implementations themselves are not part of the source tree.  The definitions
below are therefore modelled from the specification, with every behavioural
choice pinned by the assertions of the in-tree unit tests, which are the
authoritative source for the observable behaviour.

Scalars are modelled as rationals (the tests only use exactly representable
values such as 0.5 and 0.25), rectangles as `SkRect` records of rationals,
and matrices as affine 2D transforms over the rationals.
-/

/-- Axis-aligned rectangle with left/top/right/bottom edges, after Skia's
`SkRect`.  A rectangle is empty when it has no positive extent. -/
structure SkRect where
  l : ℚ
  t : ℚ
  r : ℚ
  b : ℚ
deriving DecidableEq, Repr


namespace SkRect

/-- The default `SkRect()` of Skia: all edges zero (an empty rect). -/
def zero : SkRect := ⟨0, 0, 0, 0⟩

/-- A rectangle is empty when its right edge is not to the right of its
left edge, or its bottom edge not below its top edge. -/
def isEmpty (a : SkRect) : Bool := a.r ≤ a.l || a.b ≤ a.t

/-- Intersection of two rectangles; yields the all-zero empty rect when the
rectangles do not overlap, after `SkRect::intersect`. -/
def intersectOrEmpty (a c : SkRect) : SkRect :=
  let L := max a.l c.l
  let T := max a.t c.t
  let R := min a.r c.r
  let B := min a.b c.b
  if L < R ∧ T < B then ⟨L, T, R, B⟩ else zero

/-- Whether two rectangles overlap in a region of positive area, after
`SkRect::Intersects` (false whenever either rectangle is empty). -/
def intersects (a c : SkRect) : Bool :=
  max a.l c.l < min a.r c.r && max a.t c.t < min a.b c.b

/-- Bounding-box union, after `SkRect::join`: an empty argument is ignored
and joining onto an empty rect returns the argument. -/
def join (a c : SkRect) : SkRect :=
  if c.isEmpty then a
  else if a.isEmpty then c
  else ⟨min a.l c.l, min a.t c.t, max a.r c.r, max a.b c.b⟩

/-- Containment of rectangle `a` inside rectangle `c` (edgewise). -/
def subset (a c : SkRect) : Prop :=
  c.l ≤ a.l ∧ c.t ≤ a.t ∧ a.r ≤ c.r ∧ a.b ≤ c.b

instance (a c : SkRect) : Decidable (subset a c) := by
  unfold subset; infer_instance

end SkRect


/-- The giant cull rectangle `kGiantRect` used as the unclipped default. -/
def kGiantRect : SkRect := ⟨-1000000000, -1000000000, 1000000000, 1000000000⟩


/-- Affine 2D transform, the sub-language of `SkMatrix` exercised by the
tests (translate and scale compose inside it).  Maps `(x, y)` to
`(a*x + b*y + c, d*x + e*y + f)`. -/
structure AffineM where
  a : ℚ
  b : ℚ
  c : ℚ
  d : ℚ
  e : ℚ
  f : ℚ
deriving DecidableEq, Repr


namespace AffineM

/-- Identity transform, `SkMatrix::I()`. -/
def ident : AffineM := ⟨1, 0, 0, 0, 1, 0⟩

/-- Pure translation, `SkMatrix::Translate`. -/
def translate (tx ty : ℚ) : AffineM := ⟨1, 0, tx, 0, 1, ty⟩

/-- Pure scale, `SkMatrix::Scale`. -/
def scale (sx sy : ℚ) : AffineM := ⟨sx, 0, 0, 0, sy, 0⟩

/-- Composition `m ∘ n` (first apply `n`, then `m`), matching
`SkMatrix::preConcat` on the accumulated transform. -/
def comp (m n : AffineM) : AffineM :=
  ⟨m.a * n.a + m.b * n.d, m.a * n.b + m.b * n.e, m.a * n.c + m.b * n.f + m.c,
   m.d * n.a + m.e * n.d, m.d * n.b + m.e * n.e, m.d * n.c + m.e * n.f + m.f⟩

/-- Determinant of the linear part; the transform is invertible (and hence
usable as a raster-cache key) exactly when it is nonzero. -/
def det (m : AffineM) : ℚ := m.a * m.e - m.b * m.d

/-- Whether the transform is invertible (`SkMatrix::invert` succeeds). -/
def invertible (m : AffineM) : Bool := m.det ≠ 0

/-- Map a point. -/
def mapPt (m : AffineM) (x y : ℚ) : ℚ × ℚ :=
  (m.a * x + m.b * y + m.c, m.d * x + m.e * y + m.f)

/-- Map a rectangle to the bounding box of its mapped corners, after
`SkMatrix::mapRect`. -/
def mapRect (m : AffineM) (rc : SkRect) : SkRect :=
  let p1 := m.mapPt rc.l rc.t
  let p2 := m.mapPt rc.r rc.t
  let p3 := m.mapPt rc.l rc.b
  let p4 := m.mapPt rc.r rc.b
  ⟨min (min p1.1 p2.1) (min p3.1 p4.1), min (min p1.2 p2.2) (min p3.2 p4.2),
   max (max p1.1 p2.1) (max p3.1 p4.1), max (max p1.2 p2.2) (max p3.2 p4.2)⟩

/-- Inverse of an invertible affine transform (garbage when `det = 0`;
guarded by `invertible` at every use). -/
def inverse (m : AffineM) : AffineM :=
  let dt := m.det
  ⟨m.e / dt, -m.b / dt, (m.b * m.f - m.e * m.c) / dt,
   -m.d / dt, m.a / dt, (m.d * m.c - m.a * m.f) / dt⟩

end AffineM


/-- A display-list color filter, identified opaquely (the tests use
`DlBlendColorFilter` values that do not commute with opacity). -/
structure DlColorFilter where
  idn : ℕ
deriving DecidableEq, Repr


/-- A display-list image filter, identified opaquely. -/
structure DlImageFilter where
  idn : ℕ
deriving DecidableEq, Repr


/-- The attribute part of a `DlPaint`: opacity, color filter, image filter. -/
structure DlPaint where
  opacity : ℚ := 1
  colorFilter : Option DlColorFilter := none
  imageFilter : Option DlImageFilter := none
deriving DecidableEq, Repr


/-- Operations recorded by a `DisplayListBuilder` (or mock canvas), the
fixed vocabulary the state stack emits against its delegate. -/
inductive DlOp where
  | save
  | saveLayer (bounds : SkRect) (paint : DlPaint)
  | restore
  | clipRect (rc : SkRect) (antiAliased : Bool)
  | drawRect (rc : SkRect) (paint : DlPaint)
  | drawPath (bounds : SkRect) (paint : DlPaint)
deriving DecidableEq, Repr


/-- Recording delegate: the emitted operations in order, and the current
save count (1 when no save is outstanding, as in `getSaveCount`). -/
structure DisplayListBuilder where
  ops : List DlOp := []
  saveCount : ℕ := 1
deriving DecidableEq, Repr


namespace DisplayListBuilder

/-- Append one operation, maintaining the save count. -/
def append (bld : DisplayListBuilder) (op : DlOp) : DisplayListBuilder :=
  { ops := bld.ops ++ [op],
    saveCount :=
      match op with
      | .save => bld.saveCount + 1
      | .saveLayer _ _ => bld.saveCount + 1
      | .restore => bld.saveCount - 1
      | _ => bld.saveCount }

/-- Number of offscreen passes (saveLayer operations) recorded so far. -/
def numSaveLayers (bld : DisplayListBuilder) : ℕ :=
  bld.ops.countP fun op => match op with | .saveLayer _ _ => true | _ => false

end DisplayListBuilder


/-- Transform-and-cull component of the accumulated render state: the
current matrix and the device- and local-space cull rectangles. -/
structure TCState where
  matrix : AffineM := AffineM.ident
  deviceCull : SkRect := kGiantRect
  localCull : SkRect := kGiantRect
deriving DecidableEq, Repr


/-- Outstanding (unapplied) attribute state of the stack: an opacity, an
optional color filter, an optional image filter, and the bounds to use for
the saveLayer that would resolve them. -/
structure StackAttributes where
  opacity : ℚ := 1
  colorFilter : Option DlColorFilter := none
  imageFilter : Option DlImageFilter := none
  saveLayerBounds : SkRect := SkRect.zero
deriving DecidableEq, Repr


/-- Convert the outstanding attributes to the paint of a resolving
saveLayer (or of a directly handed-off draw). -/
def StackAttributes.toPaint (at' : StackAttributes) : DlPaint :=
  ⟨at'.opacity, at'.colorFilter, at'.imageFilter⟩


/-- Kind of an open scope: a `save()` mutator scope, or the auto-restore
scope opened by `applyState`. -/
inductive FrameKind where
  | saveFrame
  | stateFrame
deriving DecidableEq, Repr


/-- One open scope of the state stack.  It snapshots the state to restore
on exit (the implementation restores through per-entry records holding the
same data), remembers whether a delegate `save` was emitted when the scope
opened, and counts the resolving saveLayers emitted inside it, each of
which owes one delegate `restore` on exit. -/
structure StackFrame where
  kind : FrameKind
  savedTC : TCState
  savedAttr : StackAttributes
  emittedSave : Bool
  layerCount : ℕ
deriving DecidableEq, Repr


/-- Modelled from the spec: the `LayerStateStack` of
`flow/layers/layer_state_stack.h/.cc`, absent from this source tree.  The
stack accumulates transform/clip/opacity/color-filter/image-filter state
across nested scopes and defers offscreen passes; the resolution rules
below are pinned by `flow/layers/layer_state_stack_unittests.cc`.  A single
optional recording delegate is attached at construction. -/
structure LayerStateStack where
  current : TCState := {}
  outstanding : StackAttributes := {}
  frames : List StackFrame := []
  delegate : Option DisplayListBuilder := none
deriving DecidableEq, Repr


namespace LayerStateStack

/-- Emit one operation to the delegate, when one is attached. -/
def emit (ss : LayerStateStack) (op : DlOp) : LayerStateStack :=
  match ss.delegate with
  | none => ss
  | some bld => { ss with delegate := some (bld.append op) }

/-- Whether no scope is currently open (`is_empty`). -/
def isEmpty (ss : LayerStateStack) : Bool := ss.frames.isEmpty

/-- The delegate's current save count (1 when detached, matching a fresh
builder). -/
def delegateSaveCount (ss : LayerStateStack) : ℕ :=
  match ss.delegate with
  | none => 1
  | some bld => bld.saveCount

/-- Number of saveLayer passes the delegate has recorded. -/
def numSaveLayers (ss : LayerStateStack) : ℕ :=
  match ss.delegate with
  | none => 0
  | some bld => bld.numSaveLayers

/-- `save()`: open a mutator scope; emits a delegate `save`. -/
def save (ss : LayerStateStack) : LayerStateStack :=
  let fr : StackFrame :=
    { kind := .saveFrame, savedTC := ss.current, savedAttr := ss.outstanding,
      emittedSave := ss.delegate.isSome, layerCount := 0 }
  (emit { ss with frames := fr :: ss.frames } .save)

/-- Record one resolving saveLayer against the innermost open scope. -/
def bumpLayerCount (ss : LayerStateStack) : LayerStateStack :=
  match ss.frames with
  | [] => ss
  | fr :: rest => { ss with frames := { fr with layerCount := fr.layerCount + 1 } :: rest }

/-- Resolve all outstanding attributes into one offscreen pass: emit a
`saveLayer` carrying the outstanding attributes at the outstanding bounds,
then reset the outstanding state. -/
def saveLayerResolve (ss : LayerStateStack) : LayerStateStack :=
  let ss := emit ss (.saveLayer ss.outstanding.saveLayerBounds ss.outstanding.toPaint)
  bumpLayerCount { ss with outstanding := {} }

/-- Close the innermost scope: emit the delegate restores owed by the scope
(one per resolving saveLayer, plus one for the scope's own `save`), and
restore the transform/cull and outstanding-attribute state captured at
scope entry. -/
def restoreScope (ss : LayerStateStack) : LayerStateStack :=
  match ss.frames with
  | [] => ss
  | fr :: rest =>
      let owed := fr.layerCount + (if fr.emittedSave then 1 else 0)
      Nat.fold (fun _ acc => emit acc .restore) owed
        { ss with frames := rest, current := fr.savedTC, outstanding := fr.savedAttr }

/-- `applyTransform`: concatenate onto the current matrix; the local cull
rectangle becomes the inverse image of the device cull rectangle. -/
def applyTransform (m : AffineM) (ss : LayerStateStack) : LayerStateStack :=
  let mx := ss.current.matrix.comp m
  { ss with current :=
      { ss.current with
        matrix := mx
        localCull := if mx.invertible then mx.inverse.mapRect ss.current.deviceCull
                     else SkRect.zero } }

/-- `applyClip` with a rectangular shape: intersect the local cull
rectangle with the clip and the device cull rectangle with its mapped
image; emits a delegate clip operation. -/
def applyClipRect (rc : SkRect) (antiAliased : Bool) (ss : LayerStateStack) : LayerStateStack :=
  let ss := emit ss (.clipRect rc antiAliased)
  { ss with current :=
      { ss.current with
        localCull := ss.current.localCull.intersectOrEmpty rc
        deviceCull := ss.current.deviceCull.intersectOrEmpty (ss.current.matrix.mapRect rc) } }

/-- `applyOpacity`: a no-op for opacity 1; otherwise an outstanding image
filter is first resolved by a pass, then the opacity folds multiplicatively
into the outstanding state. -/
def applyOpacity (bounds : SkRect) (opacity : ℚ) (ss : LayerStateStack) : LayerStateStack :=
  if opacity < 1 then
    let ss := if ss.outstanding.imageFilter.isSome then ss.saveLayerResolve else ss
    { ss with outstanding :=
        { ss.outstanding with
          opacity := ss.outstanding.opacity * opacity
          saveLayerBounds := bounds } }
  else ss

/-- `applyColorFilter`: an outstanding color filter, image filter, or
opacity is first resolved by a pass (the test filters do not commute with
opacity), then the filter becomes the outstanding color filter. -/
def applyColorFilter (bounds : SkRect) (filter : DlColorFilter) (ss : LayerStateStack) : LayerStateStack :=
  let ss :=
    if ss.outstanding.colorFilter.isSome || ss.outstanding.imageFilter.isSome
        || ss.outstanding.opacity < 1 then
      ss.saveLayerResolve
    else ss
  { ss with outstanding :=
      { ss.outstanding with colorFilter := some filter, saveLayerBounds := bounds } }

/-- `applyImageFilter`: only an outstanding image filter forces a resolving
pass; opacity and color filters compose with a subsequent image filter. -/
def applyImageFilter (bounds : SkRect) (filter : DlImageFilter) (ss : LayerStateStack) : LayerStateStack :=
  let ss := if ss.outstanding.imageFilter.isSome then ss.saveLayerResolve else ss
  { ss with outstanding :=
      { ss.outstanding with imageFilter := some filter, saveLayerBounds := bounds } }

/-- Capability bits a caller passes to `applyState`: which of the
outstanding attribute classes it can apply by itself. -/
structure RenderFlags where
  opacity : Bool
  colorFilter : Bool
  imageFilter : Bool
deriving DecidableEq, Repr

/-- Whether resolving the outstanding state needs an offscreen pass given
the caller's capabilities. -/
def needsSaveLayer (caps : RenderFlags) (ss : LayerStateStack) : Bool :=
  (decide (ss.outstanding.opacity < 1) && !caps.opacity)
    || (ss.outstanding.colorFilter.isSome && !caps.colorFilter)
    || (ss.outstanding.imageFilter.isSome && !caps.imageFilter)

/-- `applyState(bounds, capabilities)`: open an auto-restore scope and, if
any outstanding attribute class is beyond the caller's declared
capabilities, resolve all outstanding state with a single saveLayer. -/
def applyState (caps : RenderFlags) (ss : LayerStateStack) : LayerStateStack :=
  let fr : StackFrame :=
    { kind := .stateFrame, savedTC := ss.current, savedAttr := ss.outstanding,
      emittedSave := false, layerCount := 0 }
  let ss := { ss with frames := fr :: ss.frames }
  if needsSaveLayer caps ss then ss.saveLayerResolve else ss

/-- `fill(paint)`: merge the outstanding attributes into a caller paint. -/
def fill (ss : LayerStateStack) (paint : DlPaint) : DlPaint :=
  { opacity := paint.opacity * ss.outstanding.opacity,
    colorFilter := match ss.outstanding.colorFilter with
      | some cf => some cf
      | none => paint.colorFilter,
    imageFilter := match ss.outstanding.imageFilter with
      | some fi => some fi
      | none => paint.imageFilter }

/-- `set_initial_state(cull_rect, matrix)`: seed the transform, the device
cull rectangle, and the inverse-mapped local cull rectangle. -/
def setInitialState (cull : SkRect) (m : AffineM) (ss : LayerStateStack) : LayerStateStack :=
  { ss with current :=
      { matrix := m, deviceCull := cull,
        localCull := if m.invertible then m.inverse.mapRect cull else SkRect.zero } }

/-- `set_initial_transform(matrix)`: seed the transform under the giant
cull rectangle. -/
def setInitialTransform (m : AffineM) (ss : LayerStateStack) : LayerStateStack :=
  setInitialState kGiantRect m ss

end LayerStateStack


/-- No capability bits (`applyState` with 0). -/
def kNoRenderFlags : LayerStateStack.RenderFlags := ⟨false, false, false⟩


/-- `LayerStateStack::kCallerCanApplyOpacity`. -/
def kCallerCanApplyOpacity : LayerStateStack.RenderFlags := ⟨true, false, false⟩


/-- `LayerStateStack::kCallerCanApplyColorFilter`. -/
def kCallerCanApplyColorFilter : LayerStateStack.RenderFlags := ⟨false, true, false⟩


/-- `LayerStateStack::kCallerCanApplyImageFilter`. -/
def kCallerCanApplyImageFilter : LayerStateStack.RenderFlags := ⟨false, false, true⟩


/-- All capability bits at once (`CALLER_CAN_APPLY_ANYTHING`). -/
def kCallerCanApplyAnything : LayerStateStack.RenderFlags := ⟨true, true, true⟩


/-- `Layer::kSaveLayerRenderFlags`: a node that renders through its own
saveLayer can absorb all three attribute classes from an ancestor. -/
def kSaveLayerRenderFlags : LayerStateStack.RenderFlags := ⟨true, true, true⟩


/-- Pointwise AND of capability flags. -/
def LayerStateStack.RenderFlags.and (x y : LayerStateStack.RenderFlags) : LayerStateStack.RenderFlags :=
  ⟨x.opacity && y.opacity, x.colorFilter && y.colorFilter, x.imageFilter && y.imageFilter⟩


/-- Clip behaviour of a clip layer, after `enum class Clip`.  The
`antiAliasWithSaveLayer` mode renders the subtree through its own
offscreen pass. -/
inductive ClipBehavior where
  | hardEdge
  | antiAlias
  | antiAliasWithSaveLayer
deriving DecidableEq, Repr


/-- Whether the clip behaviour forces an offscreen pass (`UsesSaveLayer`). -/
def ClipBehavior.usesSaveLayer : ClipBehavior → Bool
  | .antiAliasWithSaveLayer => true
  | _ => false


/-- Whether the clip is applied with antialiasing. -/
def ClipBehavior.isAntiAliased : ClipBehavior → Bool
  | .hardEdge => false
  | _ => true


mutual
/-- Modelled from the spec: the layer-tree node variants exercised by
`flow/layers/clip_rrect_layer_unittests.cc`, whose implementations
(`clip_rrect_layer.cc`, `container_layer.cc`, `mock_layer.cc`) are absent
from this source tree.  A `mock` leaf draws a path (modelled by its bounds)
and declares whether it is opacity-compatible and whether it reads back the
surface; a `clipRect` node clips its children to a rectangle (the round
corners of an rrect do not affect any modelled observable) with one of the
clip behaviours. -/
inductive Layer where
  | mock (path : SkRect) (paint : DlPaint) (compatible : Bool) (readsSurface : Bool)
  | clipRect (clip : SkRect) (behavior : ClipBehavior) (children : LayerL)
/-- Lists of layers, mutually inductive with `Layer`. -/
inductive LayerL where
  | nil
  | cons (head : Layer) (tail : LayerL)
end


/-- Membership of a layer in a layer list. -/
def LayerL.mem (l : Layer) : LayerL → Prop
  | .nil => False
  | .cons h t => h = l ∨ LayerL.mem l t


mutual
/-- Paint bounds computed by Preroll: a mock's path bounds; the clipped
bounding box of the children's bounds for a clip layer. -/
def Layer.paintBoundsOf : Layer → SkRect
  | .mock path _ _ _ => path
  | .clipRect clip _ children => (LayerL.joinBoundsOf children).intersectOrEmpty clip
/-- Bounding box of the paint bounds of a list of layers. -/
def LayerL.joinBoundsOf : LayerL → SkRect
  | .nil => SkRect.zero
  | .cons h t => (Layer.paintBoundsOf h).join (LayerL.joinBoundsOf t)
end


/-- Traversal context of Preroll: the render-state stack, the
surface-needs-readback flag, and the renderable-state capability flags the
most recent node reported upward. -/
structure PrerollCtx where
  ss : LayerStateStack := {}
  surfaceNeedsReadback : Bool := false
  renderableStateFlags : LayerStateStack.RenderFlags := kNoRenderFlags
deriving DecidableEq, Repr


mutual
/-- `Layer::Preroll` for the modelled node variants.  A clip node saves a
scope, applies its clip, prerolls its children — ANDing their capability
flags and zeroing the result as soon as a child's bounds overlap the
accumulated bounds of its earlier siblings — and restores the scope.  A
save-layer clip reports full save-layer capability regardless of the
children and isolates a child readback from the ancestor chain
(`AutoPrerollSaveLayerState`). -/
def Layer.preroll : Layer → PrerollCtx → PrerollCtx
  | .mock _ _ compatible reads, ctx =>
      { ctx with
        surfaceNeedsReadback := ctx.surfaceNeedsReadback || reads
        renderableStateFlags := if compatible then kCallerCanApplyOpacity else kNoRenderFlags }
  | .clipRect clip behavior children, ctx =>
      let prevReadback := ctx.surfaceNeedsReadback
      let ctx1 : PrerollCtx :=
        { ctx with
          ss := (ctx.ss.save).applyClipRect clip behavior.isAntiAliased
          surfaceNeedsReadback := if behavior.usesSaveLayer then false else prevReadback }
      let step := LayerL.prerollChildren children ctx1 SkRect.zero kCallerCanApplyAnything
      { step.1 with
        ss := step.1.ss.restoreScope
        surfaceNeedsReadback :=
          if behavior.usesSaveLayer then prevReadback else step.1.surfaceNeedsReadback
        renderableStateFlags :=
          if behavior.usesSaveLayer then kSaveLayerRenderFlags else step.2.2 }
/-- `ContainerLayer::PrerollChildren`: preroll each child in order,
accumulating the joined child bounds and the AND of the children's
capability flags, zeroed when a child's paint bounds intersect the joined
bounds of the children before it. -/
def LayerL.prerollChildren :
    LayerL → PrerollCtx → SkRect → LayerStateStack.RenderFlags →
    PrerollCtx × SkRect × LayerStateStack.RenderFlags
  | .nil, ctx, accBounds, accFlags => (ctx, accBounds, accFlags)
  | .cons h t, ctx, accBounds, accFlags =>
      let ctx' := Layer.preroll h { ctx with renderableStateFlags := kNoRenderFlags }
      let flags1 := accFlags.and ctx'.renderableStateFlags
      let hb := Layer.paintBoundsOf h
      let flags2 := if !accBounds.isEmpty && accBounds.intersects hb then kNoRenderFlags
                    else flags1
      LayerL.prerollChildren t ctx' (accBounds.join hb) flags2
end


/-- Paint-traversal context: the render-state stack with its attached
canvas or builder delegate. -/
structure PaintCtx where
  ss : LayerStateStack
deriving DecidableEq, Repr


/-- The paint bounds a node carries into Paint: the bounds its most recent
Preroll computed, or the default empty rect when Preroll has never run. -/
def Layer.prerolledBounds (prerolled : Bool) (l : Layer) : SkRect :=
  if prerolled then l.paintBoundsOf else SkRect.zero


/-- `Layer::needs_painting(context)`: the node's paint bounds intersect the
current local cull rectangle (false for empty bounds). -/
def needsPainting (bounds : SkRect) (ctx : PaintCtx) : Bool :=
  bounds.intersects ctx.ss.current.localCull


mutual
/-- `Layer::Paint` for the modelled node variants, returning `none` when
the `needs_painting(context)` precondition fails (the fatal assertion).  A
clip node saves a scope, applies its clip (plus the resolving saveLayer in
the save-layer clip mode), paints in order those children that need
painting, and restores its scope on exit. -/
def Layer.paint : Layer → Bool → PaintCtx → Option PaintCtx
  | .mock path paint _ _, prerolled, ctx =>
      if needsPainting (Layer.prerolledBounds prerolled (.mock path paint false false)) ctx then
        some { ctx with
               ss := ctx.ss.emit (.drawPath (if prerolled then path else SkRect.zero) (ctx.ss.fill paint)) }
      else none
  | .clipRect clip behavior children, prerolled, ctx =>
      if needsPainting (Layer.prerolledBounds prerolled (.clipRect clip behavior children)) ctx then
        let ss1 := (ctx.ss.save).applyClipRect clip behavior.isAntiAliased
        let ss2 :=
          if behavior.usesSaveLayer then
            LayerStateStack.saveLayerResolve
              { ss1 with outstanding :=
                  { ss1.outstanding with
                    saveLayerBounds := Layer.prerolledBounds prerolled (.clipRect clip behavior children) } }
          else ss1
        match LayerL.paintChildren children prerolled { ss := ss2 } with
        | none => none
        | some ctx' => some { ctx' with ss := ctx'.ss.restoreScope }
      else none
/-- `ContainerLayer::PaintChildren`: paint each child that needs painting
at the current state, in order. -/
def LayerL.paintChildren : LayerL → Bool → PaintCtx → Option PaintCtx
  | .nil, _, ctx => some ctx
  | .cons h t, prerolled, ctx =>
      if needsPainting (Layer.prerolledBounds prerolled h) ctx then
        match Layer.paint h prerolled ctx with
        | none => none
        | some ctx' => LayerL.paintChildren t prerolled ctx'
      else LayerL.paintChildren t prerolled ctx
end


/-- Key of a raster-cache entry: the content identity together with the
transform it was requested under (`RasterCacheKey`). -/
structure RCKey where
  idn : ℕ
  matrix : AffineM
deriving DecidableEq, Repr


/-- One cache entry: whether the key was encountered since the frame
began, the cross-frame access counter, and the populated image (its byte
size) once rasterized. -/
structure RCEntry where
  encounteredThisFrame : Bool := false
  accessCount : ℕ := 0
  image : Option ℕ := none
deriving DecidableEq, Repr


/-- Aggregate metrics recomputed at `endFrame`, restricted to populated
entries. -/
structure RCMetrics where
  totalCount : ℕ := 0
  totalBytes : ℕ := 0
deriving DecidableEq, Repr


/-- Modelled from the spec: the `RasterCache` of `flow/raster_cache.h/.cc`,
absent from this source tree; behaviour pinned by
`flow/raster_cache_unittests.cc`.  Holds the access threshold, the
per-frame creation budget, the number of new rasterizations this frame,
the keyed entries, and the metrics of the last completed frame. -/
structure RasterCache where
  accessThreshold : ℕ := 3
  cacheLimitPerFrame : ℕ := 3
  cachedThisFrame : ℕ := 0
  entries : List (RCKey × RCEntry) := []
  pictureMetrics : RCMetrics := {}
deriving DecidableEq, Repr


namespace RasterCache

/-- Look up an entry by key. -/
def lookup (cache : RasterCache) (key : RCKey) : Option RCEntry :=
  (cache.entries.find? fun kv => kv.1 = key).map Prod.snd

/-- Insert or replace the entry stored under a key. -/
def store (cache : RasterCache) (key : RCKey) (entry : RCEntry) : RasterCache :=
  if (cache.entries.find? fun kv => kv.1 = key).isSome then
    { cache with entries := cache.entries.map fun kv => if kv.1 = key then (key, entry) else kv }
  else
    { cache with entries := cache.entries ++ [(key, entry)] }

/-- `BeginFrame`: reset the per-frame creation accounting. -/
def beginFrame (cache : RasterCache) : RasterCache :=
  { cache with cachedThisFrame := 0 }

/-- `MarkSeen(key, matrix, visible)`: mark the entry used this frame and
bump its access counter (a hidden entry stops counting at the threshold);
returns the updated cache and the new access count. -/
def markSeen (cache : RasterCache) (key : RCKey) (visible : Bool) : RasterCache × ℕ :=
  let entry := (cache.lookup key).getD {}
  let entry := { entry with encounteredThisFrame := true }
  let entry :=
    if visible || entry.accessCount < cache.accessThreshold then
      { entry with accessCount := entry.accessCount + 1 }
    else entry
  (cache.store key entry, entry.accessCount)

/-- `GenerateNewCacheInThisFrame`: a zero access threshold disables
caching entirely, and the per-frame creation budget must not be
exhausted. -/
def generateNewCacheInThisFrame (cache : RasterCache) : Bool :=
  cache.accessThreshold ≠ 0 && cache.cachedThisFrame < cache.cacheLimitPerFrame

/-- `UpdateCacheEntry`: rasterize into the entry if it is not yet
populated (consuming per-frame budget), and report success. -/
def updateCacheEntry (cache : RasterCache) (key : RCKey) (byteSize : ℕ) : RasterCache × Bool :=
  let entry := (cache.lookup key).getD {}
  match entry.image with
  | some _ => (cache, true)
  | none =>
      let cache := cache.store key { entry with image := some byteSize }
      ({ cache with cachedThisFrame := cache.cachedThisFrame + 1 }, true)

/-- `Draw(key, canvas, paint)`: succeeds exactly when the entry under the
key is populated. -/
def draw (cache : RasterCache) (key : RCKey) : Bool :=
  match cache.lookup key with
  | some entry => entry.image.isSome
  | none => false

/-- `EvictUnusedCacheEntries`: drop every entry not marked used since the
frame began. -/
def evictUnused (cache : RasterCache) : RasterCache :=
  { cache with entries := cache.entries.filter fun kv => kv.2.encounteredThisFrame }

/-- The metrics loop of `UpdateMetrics`: walk the entries, counting and
summing only the populated ones. -/
def metricsLoop : List (RCKey × RCEntry) → RCMetrics → RCMetrics
  | [], acc => acc
  | kv :: rest, acc =>
      let acc :=
        match kv.2.image with
        | some bytes => ⟨acc.totalCount + 1, acc.totalBytes + bytes⟩
        | none => acc
      metricsLoop rest acc

/-- `EndFrame`: recompute the aggregate metrics over populated entries and
clear every entry's used-this-frame mark. -/
def endFrame (cache : RasterCache) : RasterCache :=
  { cache with
    pictureMetrics := metricsLoop cache.entries {}
    entries := cache.entries.map fun kv => (kv.1, { kv.2 with encounteredThisFrame := false }) }

/-- `EstimatePictureCacheByteSize`: bytes of the populated entries now in
the cache. -/
def estimateByteSize (cache : RasterCache) : ℕ :=
  (metricsLoop cache.entries {}).totalBytes

end RasterCache


/-- State of a `RasterCacheItem` after the preroll of a frame. -/
inductive CacheState where
  | stateNone
  | stateCurrent
deriving DecidableEq, Repr


/-- A `DisplayListRasterCacheItem` candidate: content identity, transform,
the `is_complex`/`will_change` creation hints, the display list's
operation count (its naive complexity score), and the byte size of its
rasterization. -/
structure RCItem where
  idn : ℕ
  matrix : AffineM
  isComplex : Bool := true
  willChange : Bool := false
  opCount : ℕ := 1
  byteSize : ℕ := 25600
deriving DecidableEq, Repr


/-- The cache key of an item. -/
def RCItem.key (item : RCItem) : RCKey := ⟨item.idn, item.matrix⟩


/-- The naive complexity policy: content hinted complex is always worth
caching, otherwise the score (the operation count) must clear the
`ShouldBeCached` bar of more than five operations, and content hinted
will-change is never worth caching. -/
def RCItem.worthCaching (item : RCItem) : Bool :=
  !item.willChange && (item.isComplex || item.opCount > 5)


/-- `RasterCacheItemPreroll` (PrerollSetup + PrerollFinalize): a
degenerate transform or content not worth caching never becomes a
candidate; otherwise the key is marked seen and the item becomes current
exactly when the access count exceeds the threshold and the cache policy
admits a new rasterization this frame. -/
def RCItem.preroll (item : RCItem) (cache : RasterCache) : RasterCache × CacheState :=
  if item.matrix.invertible && item.worthCaching then
    let seen := cache.markSeen item.key true
    if seen.2 > cache.accessThreshold && seen.1.generateNewCacheInThisFrame then
      (seen.1, .stateCurrent)
    else (seen.1, .stateNone)
  else (cache, .stateNone)


/-- `RasterCacheItemTryToRasterCache`: rasterize a current candidate into
its cache entry, reporting whether the entry is (now) populated. -/
def RCItem.tryToRasterCache (item : RCItem) (state : CacheState) (cache : RasterCache) :
    RasterCache × Bool :=
  match state with
  | .stateCurrent => cache.updateCacheEntry item.key item.byteSize
  | .stateNone => (cache, false)


/-- `DisplayListRasterCacheItem::Draw`: succeeds only for a current
candidate whose entry is populated. -/
def RCItem.draw (item : RCItem) (state : CacheState) (cache : RasterCache) : Bool :=
  match state with
  | .stateCurrent => cache.draw item.key
  | .stateNone => false


/-- One complete frame of the threshold tests: begin the frame, preroll
the item, try to rasterize it, and end the frame.  Returns the cache and
the item's cache state for the frame. -/
def RCItem.frame (item : RCItem) (cache : RasterCache) : RasterCache × CacheState :=
  let pre := item.preroll cache.beginFrame
  let ras := item.tryToRasterCache pre.2 pre.1
  (ras.1.endFrame, pre.2)


/-- Iterate `RCItem.frame` over a number of frames, keeping the last
frame's cache state (`stateNone` before any frame ran). -/
def RCItem.frames (item : RCItem) : ℕ → RasterCache → RasterCache × CacheState
  | 0, cache => (cache, .stateNone)
  | n + 1, cache =>
      let one := item.frames n cache
      item.frame one.1


/-- The frame pushed by `save`. -/
def LayerStateStack.savedFrame (ss : LayerStateStack) : StackFrame :=
  { kind := .saveFrame, savedTC := ss.current, savedAttr := ss.outstanding,
    emittedSave := ss.delegate.isSome, layerCount := 0 }


/-- Agreement of two stack frames up to the count of resolving saveLayers
emitted inside the scope (which the scope's own pop consumes). -/
def StackFrame.compat (f g : StackFrame) : Prop :=
  g.kind = f.kind ∧ g.savedTC = f.savedTC ∧ g.savedAttr = f.savedAttr ∧
    g.emittedSave = f.emittedSave


/-- A stack operation inside an open scope leaves every enclosing frame
intact except for the innermost frame's saveLayer count. -/
def framesCompat : List StackFrame → List StackFrame → Prop
  | [], [] => True
  | f :: r, g :: s => StackFrame.compat f g ∧ s = r
  | _, _ => False


mutual
/-- One operation of a well-nested usage of the state stack: a closed
`save()` scope with a body, or one of the mutating apply calls. -/
inductive StackCmd where
  | block (body : StackScript)
  | transform (m : AffineM)
  | clip (rc : SkRect) (antiAliased : Bool)
  | opacity (bounds : SkRect) (value : ℚ)
  | colorFilter (bounds : SkRect) (filter : DlColorFilter)
  | imageFilter (bounds : SkRect) (filter : DlImageFilter)
/-- A sequence of well-nested state-stack operations. -/
inductive StackScript where
  | done
  | seq (cmd : StackCmd) (rest : StackScript)
end


mutual
/-- Run one command against the state stack; a `block` runs `save()`, its
body, and the scope's destructor pop. -/
def StackCmd.run : StackCmd → LayerStateStack → LayerStateStack
  | .block body, ss => (StackScript.run body ss.save).restoreScope
  | .transform m, ss => ss.applyTransform m
  | .clip rc aa, ss => ss.applyClipRect rc aa
  | .opacity bounds v, ss => ss.applyOpacity bounds v
  | .colorFilter bounds f, ss => ss.applyColorFilter bounds f
  | .imageFilter bounds f, ss => ss.applyImageFilter bounds f
/-- Run a script left to right. -/
def StackScript.run : StackScript → LayerStateStack → LayerStateStack
  | .done, ss => ss
  | .seq cmd rest, ss => StackScript.run rest (cmd.run ss)
end


/-- One layer occurring strictly before another in a child list. -/
def LayerL.memBefore (x y : Layer) : LayerL → Prop
  | .nil => False
  | .cons h t => (h = x ∧ LayerL.mem y t) ∨ LayerL.memBefore x y t


/-- The key has not been marked seen since the frame began: every entry
stored under it (there is at most one) is unmarked. -/
def RasterCache.keyUnseen (cache : RasterCache) (key : RCKey) : Prop :=
  ∀ kv, kv ∈ cache.entries → kv.1 = key → kv.2.encounteredThisFrame = false


/-- The sample display-list candidate of the threshold tests: identity
transform, hinted complex, 80x80 at 4 bytes per pixel = 25600 bytes. -/
def sampleItem : RCItem := { idn := 1, matrix := AffineM.ident }


/-- A fresh cache configured with the given access threshold and the
default per-frame creation budget. -/
def freshCache (threshold : ℕ) : RasterCache := { accessThreshold := threshold }


/-- The cache contents predicted after `n` frames of requesting
`sampleItem` against an access threshold `T ≥ 1`: the access count is `n`,
the entry is populated only once the count exceeds the threshold, and the
budget/metrics fields follow. -/
def predCache (T n : ℕ) : RasterCache :=
  { accessThreshold := T, cacheLimitPerFrame := 3,
    cachedThisFrame := if T < n ∧ n ≤ T + 1 then 1 else 0,
    entries := [(sampleItem.key, ⟨false, n, if T < n then some 25600 else none⟩)],
    pictureMetrics := if T < n then ⟨1, 25600⟩ else ⟨0, 0⟩ }


/-- Predicted cache for the zero-threshold scenario: the counter keeps
counting but the entry is never populated. -/
def predCache0 (n : ℕ) : RasterCache :=
  { accessThreshold := 0, cacheLimitPerFrame := 3, cachedThisFrame := 0,
    entries := [(sampleItem.key, ⟨false, n, none⟩)], pictureMetrics := ⟨0, 0⟩ }


/-- The rectangle used throughout the state-stack unit tests. -/
def testRect : SkRect := ⟨10, 10, 20, 20⟩


/-- Stand-ins for the two distinct blend color filters of the tests. -/
def outerColorFilter : DlColorFilter := ⟨1⟩


/-- The inner (second) color filter. -/
def innerColorFilter : DlColorFilter := ⟨2⟩


/-- Stand-ins for the two distinct blur image filters of the tests. -/
def outerImageFilter : DlImageFilter := ⟨1⟩


/-- The inner (second) image filter. -/
def innerImageFilter : DlImageFilter := ⟨2⟩


/-- A fresh state stack with a fresh recording builder attached. -/
def builderStack : LayerStateStack := { delegate := some {} }


/-- The saveLayer operations recorded by the stack's delegate. -/
def recordedSaveLayers (ss : LayerStateStack) : List DlOp :=
  (ss.delegate.getD {}).ops.filter fun op => match op with
    | .saveLayer _ _ => true
    | _ => false


/-- Two nested scopes applying opacities `a` then `b`. -/
def opacityNest (a b : ℚ) : LayerStateStack :=
  (((builderStack.save).applyOpacity testRect a).save).applyOpacity testRect b


/-- Scopes applying an opacity and then a color filter. -/
def seqOpacityThenCF : LayerStateStack :=
  (((builderStack.save).applyOpacity testRect (1/2)).save).applyColorFilter testRect
    outerColorFilter


/-- Scopes applying a color filter and then an opacity. -/
def seqCFThenOpacity : LayerStateStack :=
  (((builderStack.save).applyColorFilter testRect outerColorFilter).save).applyOpacity testRect
    (1/2)


/-- Scopes applying an opacity and then an image filter. -/
def seqOpacityThenIF : LayerStateStack :=
  (((builderStack.save).applyOpacity testRect (1/2)).save).applyImageFilter testRect
    outerImageFilter


/-- Scopes applying an image filter and then an opacity. -/
def seqIFThenOpacity : LayerStateStack :=
  (((builderStack.save).applyImageFilter testRect outerImageFilter).save).applyOpacity testRect
    (1/2)


/-- Scopes applying two color filters. -/
def seqCFThenCF : LayerStateStack :=
  (((builderStack.save).applyColorFilter testRect outerColorFilter).save).applyColorFilter
    testRect innerColorFilter


/-- Scopes applying two image filters. -/
def seqIFThenIF : LayerStateStack :=
  (((builderStack.save).applyImageFilter testRect outerImageFilter).save).applyImageFilter
    testRect innerImageFilter


/-- Scopes applying a color filter and then an image filter. -/
def seqCFThenIF : LayerStateStack :=
  (((builderStack.save).applyColorFilter testRect outerColorFilter).save).applyImageFilter
    testRect innerImageFilter


/-- First opacity-compatible child of the inheritance test. -/
def mockChild1 : Layer := .mock ⟨10, 10, 30, 30⟩ {} true false


/-- Second, non-overlapping opacity-compatible child. -/
def mockChild2 : Layer := .mock ⟨40, 40, 50, 50⟩ {} true false


/-- Third child: opacity-compatible but overlapping the first two. -/
def mockChild3 : Layer := .mock ⟨20, 20, 40, 40⟩ {} true false


/-- Fourth child: non-overlapping but not opacity-compatible. -/
def mockChild4 : Layer := .mock ⟨60, 60, 70, 70⟩ {} false false


/-- The 500x500 clip region of the inheritance test. -/
def clipRect500 : SkRect := ⟨0, 0, 500, 500⟩


/-- The child path bounds of the clip layer death/paint tests. -/
def childRect : SkRect := ⟨1, 2, 3, 4⟩


/-- The clip bounds `MakeXYWH(0.5, 1.0, 5.0, 6.0)` of those tests. -/
def clipBoundsRect : SkRect := ⟨1/2, 1, 11/2, 7⟩


/-- The distant cull region used to cull the layer. -/
def distantRect : SkRect := ⟨100, 100, 110, 110⟩


/-- The initial transform `Translate(0.5, 1.0)` of those tests. -/
def initialMatrix : AffineM := AffineM.translate (1/2) 1


/-- A clip layer over an empty round-rect (zero-area clip). -/
def emptyClipLayer : Layer := .clipRect SkRect.zero .hardEdge .nil


/-- The clip layer with one fully contained mock child. -/
def containedChildLayer : Layer :=
  .clipRect clipBoundsRect .hardEdge (.cons (.mock childRect {} false false) .nil)


/-- A paint context with a fresh recording delegate and default state. -/
def paintCtxPlain : PaintCtx := { ss := { delegate := some {} } }


/-- The culled paint context: the default paint context after a scope
clipping to the distant region, as in
`TEST_F(ClipRRectLayerTest, PaintingCulledLayerDies)`. -/
def culledPaintCtx : PaintCtx :=
  { ss := (({ delegate := some {} } : LayerStateStack).save).applyClipRect distantRect false }


/-- The unculled paint context of
`TEST_F(ClipRRectLayerTest, FullyContainedChild)`. -/
def fullPaintCtx : PaintCtx :=
  { ss := LayerStateStack.setInitialTransform initialMatrix { delegate := some {} } }


/-- A mock child that reads back the composited surface. -/
def readerChild : Layer := .mock SkRect.zero {} false true


/-- A mock child that does not read back the surface. -/
def nonreaderChild : Layer := .mock SkRect.zero {} false false


/-- The readback flag after prerolling a clip layer with the given
behaviour, child list and incoming flag, as in the `ReadbackResult`
helper of the tests. -/
def readbackResult (beh : ClipBehavior) (children : LayerL) (before : Bool) : Bool :=
  ((Layer.clipRect clipBoundsRect beh children).preroll
    { surfaceNeedsReadback := before }).surfaceNeedsReadback


/-- The child lying outside the cull bounds, `MakeXYWH(2.5, 5.0, 4.5, 4.0)`. -/
def outsideChildRect : SkRect := ⟨5/2, 5, 7, 9⟩


/-- The clip layer with that child. -/
def outsideChildLayer : Layer :=
  .clipRect clipBoundsRect .hardEdge (.cons (.mock outsideChildRect {} false false) .nil)


/-- The local cull bounds `MakeXYWH(0, 0, 2.0, 4.0)` of the test. -/
def localCullRect : SkRect := ⟨0, 0, 2, 4⟩


/-- The preroll context seeded with the mapped device cull bounds. -/
def outsideCtx : PrerollCtx :=
  { ss := LayerStateStack.setInitialState (initialMatrix.mapRect localCullRect)
      initialMatrix {} }


/-- The second sample display list of the eviction test. -/
def secondItem : RCItem := { idn := 2, matrix := AffineM.ident }


/-- Frame 1 of the eviction test (threshold 1): preroll both items. -/
def c7frame1pre1 : RasterCache × CacheState :=
  sampleItem.preroll (freshCache 1).beginFrame


/-- Frame 1: preroll of the second item. -/
def c7frame1pre2 : RasterCache × CacheState := secondItem.preroll c7frame1pre1.1


/-- Frame 1: eviction of unused entries. -/
def c7frame1ev : RasterCache := c7frame1pre2.1.evictUnused


/-- Frame 1: rasterization attempts. -/
def c7frame1try1 : RasterCache × Bool := sampleItem.tryToRasterCache c7frame1pre1.2 c7frame1ev


/-- Frame 1: rasterization attempt for the second item. -/
def c7frame1try2 : RasterCache × Bool :=
  secondItem.tryToRasterCache c7frame1pre2.2 c7frame1try1.1


/-- Frame 1 complete. -/
def c7frame1done : RasterCache := c7frame1try2.1.endFrame


/-- Frame 2: preroll both items again. -/
def c7frame2pre1 : RasterCache × CacheState := sampleItem.preroll c7frame1done.beginFrame


/-- Frame 2: preroll of the second item. -/
def c7frame2pre2 : RasterCache × CacheState := secondItem.preroll c7frame2pre1.1


/-- Frame 2: eviction of unused entries. -/
def c7frame2ev : RasterCache := c7frame2pre2.1.evictUnused


/-- Frame 2: rasterization attempts (both populate now). -/
def c7frame2try1 : RasterCache × Bool := sampleItem.tryToRasterCache c7frame2pre1.2 c7frame2ev


/-- Frame 2: rasterization attempt for the second item. -/
def c7frame2try2 : RasterCache × Bool :=
  secondItem.tryToRasterCache c7frame2pre2.2 c7frame2try1.1


/-- Frame 2 complete. -/
def c7frame2done : RasterCache := c7frame2try2.1.endFrame


/-- Frame 3: only the first item is prerolled. -/
def c7frame3pre1 : RasterCache × CacheState := sampleItem.preroll c7frame2done.beginFrame


/-- Frame 3: eviction drops the second item's entry. -/
def c7frame3ev : RasterCache := c7frame3pre1.1.evictUnused


/-- Frame 3: rasterization attempt for the surviving item. -/
def c7frame3try1 : RasterCache × Bool := sampleItem.tryToRasterCache c7frame3pre1.2 c7frame3ev


/-- Frame 3 complete. -/
def c7frame3done : RasterCache := c7frame3try1.1.endFrame


/-- Frame 4: nothing is prerolled, so eviction empties the cache. -/
def c7frame4ev : RasterCache := c7frame3done.beginFrame.evictUnused


/-- Frame 4 complete. -/
def c7frame4done : RasterCache := c7frame4ev.endFrame


theorem LayerStateStack.emit_frames (ss : LayerStateStack) (op : DlOp) : (ss.emit op).frames = ss.frames := by
  unfold emit; cases ss.delegate <;> rfl


theorem LayerStateStack.emit_current (ss : LayerStateStack) (op : DlOp) : (ss.emit op).current = ss.current := by
  unfold emit; cases ss.delegate <;> rfl


theorem LayerStateStack.emit_outstanding (ss : LayerStateStack) (op : DlOp) :
    (ss.emit op).outstanding = ss.outstanding := by
  unfold emit; cases ss.delegate <;> rfl


theorem LayerStateStack.fold_emit_frames (n : ℕ) (ss : LayerStateStack) :
    (Nat.fold (fun _ acc => emit acc .restore) n ss).frames = ss.frames := by
  induction n with
  | zero => rfl
  | succ k ih => rw [Nat.fold]; rw [emit_frames]; exact ih


theorem LayerStateStack.fold_emit_current (n : ℕ) (ss : LayerStateStack) :
    (Nat.fold (fun _ acc => emit acc .restore) n ss).current = ss.current := by
  induction n with
  | zero => rfl
  | succ k ih => rw [Nat.fold]; rw [emit_current]; exact ih


theorem LayerStateStack.fold_emit_outstanding (n : ℕ) (ss : LayerStateStack) :
    (Nat.fold (fun _ acc => emit acc .restore) n ss).outstanding = ss.outstanding := by
  induction n with
  | zero => rfl
  | succ k ih => rw [Nat.fold]; rw [emit_outstanding]; exact ih


theorem LayerStateStack.save_frames (ss : LayerStateStack) : (ss.save).frames = ss.savedFrame :: ss.frames := by
  unfold save savedFrame; rw [emit_frames]


theorem LayerStateStack.save_current (ss : LayerStateStack) : (ss.save).current = ss.current := by
  unfold save; rw [emit_current]


theorem LayerStateStack.save_outstanding (ss : LayerStateStack) : (ss.save).outstanding = ss.outstanding := by
  unfold save; rw [emit_outstanding]


theorem LayerStateStack.applyClipRect_frames (rc : SkRect) (aa : Bool) (ss : LayerStateStack) :
    (applyClipRect rc aa ss).frames = ss.frames := by
  unfold applyClipRect; rw [emit_frames]


theorem LayerStateStack.applyClipRect_outstanding (rc : SkRect) (aa : Bool) (ss : LayerStateStack) :
    (applyClipRect rc aa ss).outstanding = ss.outstanding := by
  unfold applyClipRect; rw [emit_outstanding]


theorem LayerStateStack.applyTransform_frames (m : AffineM) (ss : LayerStateStack) :
    (applyTransform m ss).frames = ss.frames := rfl


theorem LayerStateStack.applyTransform_outstanding (m : AffineM) (ss : LayerStateStack) :
    (applyTransform m ss).outstanding = ss.outstanding := rfl


theorem LayerStateStack.restoreScope_of_frames (ss : LayerStateStack) (fr : StackFrame) (rest : List StackFrame)
    (h : ss.frames = fr :: rest) :
    (ss.restoreScope).frames = rest ∧ (ss.restoreScope).current = fr.savedTC ∧
      (ss.restoreScope).outstanding = fr.savedAttr := by
  unfold restoreScope
  rw [h]
  refine ⟨?_, ?_, ?_⟩
  · rw [fold_emit_frames]
  · rw [fold_emit_current]
  · rw [fold_emit_outstanding]


theorem StackFrame.compat_refl (f : StackFrame) : f.compat f := ⟨rfl, rfl, rfl, rfl⟩


theorem StackFrame.compat_trans {f g h : StackFrame} (h1 : f.compat g) (h2 : g.compat h) :
    f.compat h :=
  ⟨h2.1.trans h1.1, h2.2.1.trans h1.2.1, h2.2.2.1.trans h1.2.2.1, h2.2.2.2.trans h1.2.2.2⟩


theorem framesCompat_refl (fs : List StackFrame) : framesCompat fs fs := by
  cases fs with
  | nil => trivial
  | cons f r => exact ⟨StackFrame.compat_refl f, rfl⟩


theorem framesCompat_trans {a c e : List StackFrame} (h1 : framesCompat a c)
    (h2 : framesCompat c e) : framesCompat a e := by
  cases a with
  | nil => cases c with
    | nil => exact h2
    | cons g s => exact absurd h1 (by simp [framesCompat])
  | cons f r =>
    cases c with
    | nil => exact absurd h1 (by simp [framesCompat])
    | cons g s =>
      cases e with
      | nil => exact absurd h2 (by simp [framesCompat])
      | cons h t =>
        obtain ⟨hc1, hs⟩ := h1
        obtain ⟨hc2, ht⟩ := h2
        exact ⟨StackFrame.compat_trans hc1 hc2, ht.trans hs⟩


theorem framesCompat_cons {f : StackFrame} {r fs : List StackFrame}
    (h : framesCompat (f :: r) fs) : ∃ g, fs = g :: r ∧ StackFrame.compat f g := by
  cases fs with
  | nil => exact absurd h (by simp [framesCompat])
  | cons g s => exact ⟨g, by rw [h.2], h.1⟩


theorem LayerStateStack.bumpLayerCount_compat (ss : LayerStateStack) :
    framesCompat ss.frames (ss.bumpLayerCount).frames := by
  unfold bumpLayerCount
  cases h : ss.frames with
  | nil => simp [h]; exact framesCompat_refl _
  | cons fr rest => simp [h]; exact ⟨⟨rfl, rfl, rfl, rfl⟩, rfl⟩


theorem LayerStateStack.bumpLayerCount_current (ss : LayerStateStack) :
    (ss.bumpLayerCount).current = ss.current := by
  unfold bumpLayerCount; cases ss.frames <;> rfl


theorem LayerStateStack.saveLayerResolve_compat (ss : LayerStateStack) :
    framesCompat ss.frames (ss.saveLayerResolve).frames := by
  unfold saveLayerResolve
  have h1 := bumpLayerCount_compat
    { ss.emit (.saveLayer ss.outstanding.saveLayerBounds ss.outstanding.toPaint) with
      outstanding := {} }
  rw [show ({ ss.emit (.saveLayer ss.outstanding.saveLayerBounds ss.outstanding.toPaint) with
      outstanding := ({} : StackAttributes) } : LayerStateStack).frames
      = ss.frames from emit_frames ss _] at h1
  exact h1


theorem LayerStateStack.saveLayerResolve_current (ss : LayerStateStack) :
    (ss.saveLayerResolve).current = ss.current := by
  unfold saveLayerResolve
  rw [bumpLayerCount_current]
  exact emit_current ss _


theorem LayerStateStack.applyOpacity_compat (bounds : SkRect) (v : ℚ) (ss : LayerStateStack) :
    framesCompat ss.frames (applyOpacity bounds v ss).frames := by
  unfold applyOpacity
  split
  · split
    · exact saveLayerResolve_compat ss
    · exact framesCompat_refl _
  · exact framesCompat_refl _


theorem LayerStateStack.applyOpacity_current (bounds : SkRect) (v : ℚ) (ss : LayerStateStack) :
    (applyOpacity bounds v ss).current = ss.current := by
  unfold applyOpacity
  split
  · split
    · exact saveLayerResolve_current ss
    · rfl
  · rfl


theorem LayerStateStack.applyColorFilter_compat (bounds : SkRect) (f : DlColorFilter) (ss : LayerStateStack) :
    framesCompat ss.frames (applyColorFilter bounds f ss).frames := by
  unfold applyColorFilter
  split
  · exact saveLayerResolve_compat ss
  · exact framesCompat_refl _


theorem LayerStateStack.applyColorFilter_current (bounds : SkRect) (f : DlColorFilter) (ss : LayerStateStack) :
    (applyColorFilter bounds f ss).current = ss.current := by
  unfold applyColorFilter
  split
  · exact saveLayerResolve_current ss
  · rfl


theorem LayerStateStack.applyImageFilter_compat (bounds : SkRect) (f : DlImageFilter) (ss : LayerStateStack) :
    framesCompat ss.frames (applyImageFilter bounds f ss).frames := by
  unfold applyImageFilter
  split
  · exact saveLayerResolve_compat ss
  · exact framesCompat_refl _


theorem LayerStateStack.applyImageFilter_current (bounds : SkRect) (f : DlImageFilter) (ss : LayerStateStack) :
    (applyImageFilter bounds f ss).current = ss.current := by
  unfold applyImageFilter
  split
  · exact saveLayerResolve_current ss
  · rfl


mutual
theorem StackCmd.cmdRun_compat : ∀ (cmd : StackCmd) (ss : LayerStateStack),
    framesCompat ss.frames (cmd.run ss).frames
  | .block body, ss => by
      have hbody := StackScript.run_compat body ss.save
      rw [LayerStateStack.save_frames] at hbody
      obtain ⟨g, hg, _⟩ := framesCompat_cons hbody
      have hres := (LayerStateStack.restoreScope_of_frames _ g ss.frames hg).1
      rw [StackCmd.run, hres]
      exact framesCompat_refl _
  | .transform m, ss => by
      rw [StackCmd.run, LayerStateStack.applyTransform_frames]; exact framesCompat_refl _
  | .clip rc aa, ss => by
      rw [StackCmd.run, LayerStateStack.applyClipRect_frames]; exact framesCompat_refl _
  | .opacity bounds v, ss => LayerStateStack.applyOpacity_compat bounds v ss
  | .colorFilter bounds f, ss => LayerStateStack.applyColorFilter_compat bounds f ss
  | .imageFilter bounds f, ss => LayerStateStack.applyImageFilter_compat bounds f ss
theorem StackScript.run_compat : ∀ (s : StackScript) (ss : LayerStateStack),
    framesCompat ss.frames (StackScript.run s ss).frames
  | .done, ss => framesCompat_refl _
  | .seq cmd rest, ss => by
      rw [StackScript.run]
      exact framesCompat_trans (StackCmd.cmdRun_compat cmd ss)
        (StackScript.run_compat rest (cmd.run ss))
end


/-- Running a closed `save()` scope restores the full accumulated state:
the proof behind the scope-balance claim. -/
theorem StackScript.block_balances (body : StackScript) (ss : LayerStateStack) :
    ((StackScript.run body ss.save).restoreScope).current = ss.current ∧
      ((StackScript.run body ss.save).restoreScope).outstanding = ss.outstanding ∧
      ((StackScript.run body ss.save).restoreScope).frames = ss.frames := by
  have hbody := StackScript.run_compat body ss.save
  rw [LayerStateStack.save_frames] at hbody
  obtain ⟨g, hg, hcompat⟩ := framesCompat_cons hbody
  have hres := LayerStateStack.restoreScope_of_frames _ g ss.frames hg
  refine ⟨?_, ?_, hres.1⟩
  · rw [hres.2.1, hcompat.2.1]; rfl
  · rw [hres.2.2, hcompat.2.2.1]; rfl


mutual
theorem Layer.preroll_ss : ∀ (l : Layer) (ctx : PrerollCtx),
    (l.preroll ctx).ss.frames = ctx.ss.frames ∧ (l.preroll ctx).ss.current = ctx.ss.current ∧
      (l.preroll ctx).ss.outstanding = ctx.ss.outstanding
  | .mock p pa c rs, ctx => ⟨rfl, rfl, rfl⟩
  | .clipRect clip beh children, ctx => by
      rw [Layer.preroll]
      have hch := LayerL.prerollChildren_ss children
        { ctx with
          ss := (ctx.ss.save).applyClipRect clip beh.isAntiAliased
          surfaceNeedsReadback := if beh.usesSaveLayer then false else ctx.surfaceNeedsReadback }
        SkRect.zero kCallerCanApplyAnything
      have hframes : ((ctx.ss.save).applyClipRect clip beh.isAntiAliased).frames
          = ctx.ss.savedFrame :: ctx.ss.frames := by
        rw [LayerStateStack.applyClipRect_frames, LayerStateStack.save_frames]
      have hcons := hch.1.trans hframes
      have hres := LayerStateStack.restoreScope_of_frames _ ctx.ss.savedFrame ctx.ss.frames hcons
      exact ⟨hres.1, hres.2.1, hres.2.2⟩
theorem LayerL.prerollChildren_ss : ∀ (ls : LayerL) (ctx : PrerollCtx) (acc : SkRect)
      (fl : LayerStateStack.RenderFlags),
    (LayerL.prerollChildren ls ctx acc fl).1.ss.frames = ctx.ss.frames ∧
      (LayerL.prerollChildren ls ctx acc fl).1.ss.current = ctx.ss.current ∧
      (LayerL.prerollChildren ls ctx acc fl).1.ss.outstanding = ctx.ss.outstanding
  | .nil, ctx, acc, fl => ⟨rfl, rfl, rfl⟩
  | .cons hd t, ctx, acc, fl => by
      rw [LayerL.prerollChildren]
      have hh := Layer.preroll_ss hd { ctx with renderableStateFlags := kNoRenderFlags }
      have ht := LayerL.prerollChildren_ss t
        (Layer.preroll hd { ctx with renderableStateFlags := kNoRenderFlags })
        (acc.join (Layer.paintBoundsOf hd))
        (if !acc.isEmpty && acc.intersects (Layer.paintBoundsOf hd) then kNoRenderFlags
         else fl.and (Layer.preroll hd { ctx with renderableStateFlags := kNoRenderFlags }).renderableStateFlags)
      exact ⟨ht.1.trans hh.1, (ht.2.1).trans hh.2.1, (ht.2.2).trans hh.2.2⟩
end


mutual
theorem Layer.paint_frames : ∀ (l : Layer) (pr : Bool) (ctx ctx' : PaintCtx),
    l.paint pr ctx = some ctx' → ctx'.ss.frames = ctx.ss.frames
  | .mock p pa c rs, pr, ctx, ctx', h => by
      rw [Layer.paint] at h
      split at h
      · cases h
        exact LayerStateStack.emit_frames ctx.ss _
      · exact absurd h (by simp)
  | .clipRect clip beh children, pr, ctx, ctx', h => by
      rw [Layer.paint] at h
      split at h
      case isFalse => exact absurd h (by simp)
      case isTrue hneed =>
        have hframes1 : ((ctx.ss.save).applyClipRect clip beh.isAntiAliased).frames
            = ctx.ss.savedFrame :: ctx.ss.frames := by
          rw [LayerStateStack.applyClipRect_frames, LayerStateStack.save_frames]
        by_cases hb : beh.usesSaveLayer = true
        · simp only [hb, if_true] at h
          split at h
          next => exact absurd h (by simp)
          next c2 hch =>
            cases h
            have hch2 := LayerL.paintChildren_frames children pr _ c2 hch
            have hcompat := LayerStateStack.saveLayerResolve_compat
              { (ctx.ss.save).applyClipRect clip beh.isAntiAliased with
                outstanding :=
                  { ((ctx.ss.save).applyClipRect clip beh.isAntiAliased).outstanding with
                    saveLayerBounds :=
                      Layer.prerolledBounds pr (.clipRect clip beh children) } }
            rw [show ({ (ctx.ss.save).applyClipRect clip beh.isAntiAliased with
                outstanding :=
                  { ((ctx.ss.save).applyClipRect clip beh.isAntiAliased).outstanding with
                    saveLayerBounds :=
                      Layer.prerolledBounds pr (.clipRect clip beh children) } }
                : LayerStateStack).frames
                = ctx.ss.savedFrame :: ctx.ss.frames from hframes1] at hcompat
            obtain ⟨g, hg, _⟩ := framesCompat_cons hcompat
            rw [hg] at hch2
            exact (LayerStateStack.restoreScope_of_frames c2.ss g ctx.ss.frames hch2).1
        · rw [Bool.not_eq_true] at hb
          simp only [hb, Bool.false_eq_true, if_false] at h
          split at h
          next => exact absurd h (by simp)
          next c2 hch =>
            cases h
            have hch2 := LayerL.paintChildren_frames children pr _ c2 hch
            rw [hframes1] at hch2
            exact (LayerStateStack.restoreScope_of_frames c2.ss ctx.ss.savedFrame
              ctx.ss.frames hch2).1
theorem LayerL.paintChildren_frames : ∀ (ls : LayerL) (pr : Bool) (ctx ctx' : PaintCtx),
    LayerL.paintChildren ls pr ctx = some ctx' → ctx'.ss.frames = ctx.ss.frames
  | .nil, pr, ctx, ctx', h => by cases h; rfl
  | .cons hd t, pr, ctx, ctx', h => by
      rw [LayerL.paintChildren] at h
      split at h
      · split at h
        next => exact absurd h (by simp)
        next c2 hc2 =>
          exact (LayerL.paintChildren_frames t pr c2 ctx' h).trans
            (Layer.paint_frames hd pr ctx c2 hc2)
      · exact LayerL.paintChildren_frames t pr ctx ctx' h
end


mutual
theorem Layer.preroll_readback_mono : ∀ (l : Layer) (ctx : PrerollCtx),
    ctx.surfaceNeedsReadback = true → (l.preroll ctx).surfaceNeedsReadback = true
  | .mock p pa c rs, ctx, h => by
      rw [Layer.preroll]
      simp [h]
  | .clipRect clip beh children, ctx, h => by
      rw [Layer.preroll]
      by_cases hb : beh.usesSaveLayer = true
      · simp only [hb, if_true, h]
      · rw [Bool.not_eq_true] at hb
        simp only [hb, Bool.false_eq_true, if_false]
        exact LayerL.prerollChildren_readback_mono children _ _ _ h
theorem LayerL.prerollChildren_readback_mono : ∀ (ls : LayerL) (ctx : PrerollCtx)
      (acc : SkRect) (fl : LayerStateStack.RenderFlags),
    ctx.surfaceNeedsReadback = true →
      (LayerL.prerollChildren ls ctx acc fl).1.surfaceNeedsReadback = true
  | .nil, ctx, acc, fl, h => h
  | .cons hd t, ctx, acc, fl, h => by
      rw [LayerL.prerollChildren]
      exact LayerL.prerollChildren_readback_mono t _ _ _
        (Layer.preroll_readback_mono hd { ctx with renderableStateFlags := kNoRenderFlags } h)
end


/-- A clip layer that renders through its own offscreen pass restores the
incoming readback flag regardless of its children: the pass isolates a
child readback from the ancestor chain. -/
theorem Layer.clip_saveLayer_readback (clip : SkRect) (children : LayerL) (ctx : PrerollCtx) :
    ((Layer.clipRect clip .antiAliasWithSaveLayer children).preroll ctx).surfaceNeedsReadback
      = ctx.surfaceNeedsReadback := by
  rw [Layer.preroll]
  simp [ClipBehavior.usesSaveLayer]


theorem SkRect.isEmpty_false_iff (a : SkRect) : a.isEmpty = false ↔ a.l < a.r ∧ a.t < a.b := by
  simp [isEmpty, not_le]


theorem SkRect.intersects_true_iff (a c : SkRect) :
    a.intersects c = true ↔
      (a.l < a.r ∧ a.l < c.r ∧ c.l < a.r ∧ c.l < c.r) ∧
        (a.t < a.b ∧ a.t < c.b ∧ c.t < a.b ∧ c.t < c.b) := by
  simp only [intersects, Bool.and_eq_true, decide_eq_true_eq, max_lt_iff, lt_min_iff]
  tauto


theorem SkRect.intersects_nonempty {a c : SkRect} (h : a.intersects c = true) :
    a.isEmpty = false ∧ c.isEmpty = false := by
  rw [intersects_true_iff] at h
  rw [isEmpty_false_iff, isEmpty_false_iff]
  exact ⟨⟨h.1.1, h.2.1⟩, ⟨h.1.2.2.2, h.2.2.2.2⟩⟩


theorem SkRect.subset_refl (a : SkRect) : a.subset a := ⟨le_refl _, le_refl _, le_refl _, le_refl _⟩


theorem SkRect.subset_trans {a c e : SkRect} (h1 : a.subset c) (h2 : c.subset e) : a.subset e :=
  ⟨h2.1.trans h1.1, h2.2.1.trans h1.2.1, h1.2.2.1.trans h2.2.2.1, h1.2.2.2.trans h2.2.2.2⟩


theorem SkRect.subset_nonempty {a c : SkRect} (ha : a.isEmpty = false) (h : a.subset c) :
    c.isEmpty = false := by
  rw [isEmpty_false_iff] at ha ⊢
  obtain ⟨s1, s2, s3, s4⟩ := h
  constructor <;> linarith [ha.1, ha.2]


theorem SkRect.subset_join_left {a c : SkRect} (ha : a.isEmpty = false) : a.subset (a.join c) := by
  unfold join
  split
  · exact subset_refl a
  · split
    · exact absurd ha (by simp_all)
    · exact ⟨min_le_left _ _, min_le_left _ _, le_max_left _ _, le_max_left _ _⟩


theorem SkRect.subset_join_right {a c : SkRect} (hc : c.isEmpty = false) : c.subset (a.join c) := by
  unfold join
  split
  · exact absurd hc (by simp_all)
  · split
    · exact subset_refl c
    · exact ⟨min_le_right _ _, min_le_right _ _, le_max_right _ _, le_max_right _ _⟩


theorem SkRect.intersects_mono {a c y : SkRect} (hsub : a.subset c) (h : a.intersects y = true) :
    c.intersects y = true := by
  rw [intersects_true_iff] at h ⊢
  obtain ⟨⟨h1, h2, h3, h4⟩, h5, h6, h7, h8⟩ := h
  obtain ⟨s1, s2, s3, s4⟩ := hsub
  refine ⟨⟨?_, ?_, ?_, h4⟩, ?_, ?_, ?_, h8⟩ <;> linarith


theorem LayerStateStack.RenderFlags.kNone_and (x : LayerStateStack.RenderFlags) :
    kNoRenderFlags.and x = kNoRenderFlags := by
  simp [LayerStateStack.RenderFlags.and, kNoRenderFlags]


theorem LayerStateStack.RenderFlags.and_kNone (x : LayerStateStack.RenderFlags) :
    x.and kNoRenderFlags = kNoRenderFlags := by
  simp [LayerStateStack.RenderFlags.and, kNoRenderFlags]


/-- Once the children fold has zeroed the capability flags they stay
zero for the rest of the children. -/
theorem LayerL.prerollChildren_flags_absorb : ∀ (ls : LayerL) (ctx : PrerollCtx) (acc : SkRect),
    (LayerL.prerollChildren ls ctx acc kNoRenderFlags).2.2 = kNoRenderFlags
  | .nil, _, _ => rfl
  | .cons hd t, ctx, acc => by
      rw [LayerL.prerollChildren]
      by_cases hc : (!acc.isEmpty && acc.intersects (Layer.paintBoundsOf hd)) = true
      · simp only [hc, if_true]
        exact LayerL.prerollChildren_flags_absorb t _ _
      · rw [Bool.not_eq_true] at hc
        simp only [hc, Bool.false_eq_true, if_false,
          LayerStateStack.RenderFlags.kNone_and]
        exact LayerL.prerollChildren_flags_absorb t _ _


/-- An incompatible child (a mock that does not declare the opacity
capability) zeroes the children fold's capability flags. -/
theorem LayerL.prerollChildren_flags_incompatible :
    ∀ (ls : LayerL) (ctx : PrerollCtx) (acc : SkRect) (fl : LayerStateStack.RenderFlags)
      (p : SkRect) (pa : DlPaint) (rs : Bool),
    LayerL.mem (.mock p pa false rs) ls →
    (LayerL.prerollChildren ls ctx acc fl).2.2 = kNoRenderFlags
  | .nil, ctx, acc, fl, p, pa, rs, hmem => absurd hmem (by simp [LayerL.mem])
  | .cons hd t, ctx, acc, fl, p, pa, rs, hmem => by
      rw [LayerL.prerollChildren]
      rcases hmem with heq | hmem
      · subst heq
        by_cases hc : (!acc.isEmpty
            && acc.intersects (Layer.paintBoundsOf (.mock p pa false rs))) = true
        · simp only [hc, if_true]
          exact LayerL.prerollChildren_flags_absorb t _ _
        · rw [Bool.not_eq_true] at hc
          have hff : (Layer.preroll (.mock p pa false rs)
              { ctx with renderableStateFlags := kNoRenderFlags }).renderableStateFlags
              = kNoRenderFlags := by
            rw [Layer.preroll]
            simp
          simp only [hc, Bool.false_eq_true, if_false, hff,
            LayerStateStack.RenderFlags.and_kNone]
          exact LayerL.prerollChildren_flags_absorb t _ _
      · exact LayerL.prerollChildren_flags_incompatible t _ _ _ p pa rs hmem


/-- Auxiliary overlap argument: a nonempty rectangle already inside the
accumulated bounds that intersects some later child zeroes the fold. -/
theorem LayerL.prerollChildren_flags_overlap_aux :
    ∀ (ls : LayerL) (ctx : PrerollCtx) (acc : SkRect) (fl : LayerStateStack.RenderFlags)
      (rp : SkRect),
    rp.isEmpty = false → rp.subset acc →
    (∃ y, LayerL.mem y ls ∧ rp.intersects (Layer.paintBoundsOf y) = true) →
    (LayerL.prerollChildren ls ctx acc fl).2.2 = kNoRenderFlags
  | .nil, ctx, acc, fl, rp, hne, hsub, hex => absurd hex (by simp [LayerL.mem])
  | .cons hd t, ctx, acc, fl, rp, hne, hsub, ⟨y, hy, hint⟩ => by
      rw [LayerL.prerollChildren]
      by_cases hcase : rp.intersects (Layer.paintBoundsOf hd) = true
      · have hacc_ne := SkRect.subset_nonempty hne hsub
        have hai := SkRect.intersects_mono hsub hcase
        simp only [hacc_ne, hai, Bool.not_false, Bool.and_self, if_true]
        exact LayerL.prerollChildren_flags_absorb t _ _
      · rcases hy with heq | hyt
        · rw [heq] at hcase
          exact absurd hint hcase
        · have hacc_ne := SkRect.subset_nonempty hne hsub
          exact LayerL.prerollChildren_flags_overlap_aux t _ _ _ rp hne
            (SkRect.subset_trans hsub (SkRect.subset_join_left hacc_ne)) ⟨y, hyt, hint⟩


/-- Two children whose paint bounds overlap (in list order) zero the
children fold's capability flags. -/
theorem LayerL.prerollChildren_flags_overlap :
    ∀ (ls : LayerL) (ctx : PrerollCtx) (acc : SkRect) (fl : LayerStateStack.RenderFlags)
      (x y : Layer),
    LayerL.memBefore x y ls →
    (Layer.paintBoundsOf x).intersects (Layer.paintBoundsOf y) = true →
    (LayerL.prerollChildren ls ctx acc fl).2.2 = kNoRenderFlags
  | .nil, ctx, acc, fl, x, y, hbefore, hover => absurd hbefore (by simp [LayerL.memBefore])
  | .cons hd t, ctx, acc, fl, x, y, hbefore, hover => by
      rcases hbefore with ⟨heq, hyt⟩ | hbt
      · rw [LayerL.prerollChildren]
        subst heq
        have hxne := (SkRect.intersects_nonempty hover).1
        exact LayerL.prerollChildren_flags_overlap_aux t _ _ _ (Layer.paintBoundsOf hd) hxne
          (SkRect.subset_join_right hxne) ⟨y, hyt, hover⟩
      · rw [LayerL.prerollChildren]
        exact LayerL.prerollChildren_flags_overlap t _ _ _ x y hbt hover


/-- A non-save-layer clip container with an incompatible mock child
reports zero capability. -/
theorem Layer.clip_flags_zero_of_incompatible (clip : SkRect) (beh : ClipBehavior)
    (children : LayerL) (ctx : PrerollCtx) (p : SkRect) (pa : DlPaint) (rs : Bool)
    (hb : beh.usesSaveLayer = false) (hmem : LayerL.mem (.mock p pa false rs) children) :
    ((Layer.clipRect clip beh children).preroll ctx).renderableStateFlags = kNoRenderFlags := by
  rw [Layer.preroll]
  simp only [hb, Bool.false_eq_true, if_false]
  exact LayerL.prerollChildren_flags_incompatible children _ _ _ p pa rs hmem


/-- A non-save-layer clip container with two overlapping children (in
list order) reports zero capability. -/
theorem Layer.clip_flags_zero_of_overlap (clip : SkRect) (beh : ClipBehavior)
    (children : LayerL) (ctx : PrerollCtx) (x y : Layer)
    (hb : beh.usesSaveLayer = false) (hbefore : LayerL.memBefore x y children)
    (hover : (Layer.paintBoundsOf x).intersects (Layer.paintBoundsOf y) = true) :
    ((Layer.clipRect clip beh children).preroll ctx).renderableStateFlags = kNoRenderFlags := by
  rw [Layer.preroll]
  simp only [hb, Bool.false_eq_true, if_false]
  exact LayerL.prerollChildren_flags_overlap children _ _ _ x y hbefore hover


/-- A save-layer clip container always reports the full save-layer
capability flags, whatever its children. -/
theorem Layer.clip_saveLayer_flags (clip : SkRect) (children : LayerL) (ctx : PrerollCtx) :
    ((Layer.clipRect clip .antiAliasWithSaveLayer children).preroll ctx).renderableStateFlags
      = kSaveLayerRenderFlags := by
  rw [Layer.preroll]
  simp [ClipBehavior.usesSaveLayer]


theorem RasterCache.find?_filter_unseen : ∀ (l : List (RCKey × RCEntry)) (key : RCKey),
    (∀ kv, kv ∈ l → kv.1 = key → kv.2.encounteredThisFrame = false) →
    ((l.filter fun kv => kv.2.encounteredThisFrame).find? fun kv => kv.1 = key) = none := by
  intro l key h
  induction l with
  | nil => rfl
  | cons kv t ih =>
    rw [List.filter_cons]
    by_cases he : kv.2.encounteredThisFrame = true
    · rw [if_pos (by simp [he])]
      rw [List.find?_cons]
      have hk : ¬ (kv.1 = key) := fun hk =>
        absurd (h kv (List.mem_cons_self kv t) hk) (by simp [he])
      rw [decide_eq_false hk]
      exact ih fun kv' hm hk' => h kv' (List.mem_cons_of_mem kv hm) hk'
    · rw [if_neg (by simpa using he)]
      exact ih fun kv' hm hk' => h kv' (List.mem_cons_of_mem kv hm) hk'


theorem RasterCache.find?_filter_seen : ∀ (l : List (RCKey × RCEntry)) (key : RCKey)
      (kv0 : RCKey × RCEntry),
    (l.find? fun kv => kv.1 = key) = some kv0 → kv0.2.encounteredThisFrame = true →
    ((l.filter fun kv => kv.2.encounteredThisFrame).find? fun kv => kv.1 = key) = some kv0 := by
  intro l key kv0 h henc
  induction l with
  | nil => exact absurd h (by simp)
  | cons kv t ih =>
    rw [List.find?_cons] at h
    by_cases hk : kv.1 = key
    · rw [decide_eq_true hk] at h
      cases h
      rw [List.filter_cons, if_pos (by simp [henc])]
      rw [List.find?_cons, decide_eq_true hk]
    · rw [decide_eq_false hk] at h
      rw [List.filter_cons]
      by_cases he : kv.2.encounteredThisFrame = true
      · rw [if_pos (by simp [he])]
        rw [List.find?_cons, decide_eq_false hk]
        exact ih h
      · rw [if_neg (by simpa using he)]
        exact ih h


/-- Any key not marked seen since the frame began is absent after
`evictUnused`. -/
theorem RasterCache.evict_unseen_absent (cache : RasterCache) (key : RCKey)
    (h : cache.keyUnseen key) : (cache.evictUnused).lookup key = none := by
  unfold evictUnused lookup
  rw [find?_filter_unseen cache.entries key h]
  rfl


/-- An entry seen this frame survives `evictUnused` unchanged. -/
theorem RasterCache.evict_seen_present (cache : RasterCache) (key : RCKey) (e : RCEntry)
    (h : cache.lookup key = some e) (he : e.encounteredThisFrame = true) :
    (cache.evictUnused).lookup key = some e := by
  unfold lookup at h
  obtain ⟨kv0, hf, hsnd⟩ := Option.map_eq_some'.mp h
  unfold evictUnused lookup
  rw [find?_filter_seen cache.entries key kv0 hf (by rw [hsnd]; exact he)]
  simp [hsnd]


theorem RasterCache.find?_map_replace : ∀ (l : List (RCKey × RCEntry)) (key : RCKey) (e : RCEntry)
      (kv0 : RCKey × RCEntry),
    (l.find? fun kv => kv.1 = key) = some kv0 →
    ((l.map fun kv => if kv.1 = key then (key, e) else kv).find? fun kv => kv.1 = key)
      = some (key, e) := by
  intro l key e kv0 h
  induction l with
  | nil => exact absurd h (by simp)
  | cons kv t ih =>
    rw [List.find?_cons] at h
    by_cases hk : kv.1 = key
    · simp only [List.map_cons, if_pos hk]
      rw [List.find?_cons]
      simp
    · rw [decide_eq_false hk] at h
      simp only [List.map_cons, if_neg hk]
      rw [List.find?_cons, decide_eq_false hk]
      exact ih h


theorem RasterCache.lookup_store (cache : RasterCache) (key : RCKey) (e : RCEntry) :
    (cache.store key e).lookup key = some e := by
  unfold store lookup
  by_cases hf : (cache.entries.find? fun kv => kv.1 = key).isSome
  · rw [if_pos hf]
    obtain ⟨kv0, hkv0⟩ := Option.isSome_iff_exists.mp hf
    dsimp only
    rw [find?_map_replace cache.entries key e kv0 hkv0]
    rfl
  · rw [if_neg hf]
    rw [Option.not_isSome_iff_eq_none] at hf
    dsimp only
    rw [List.find?_append, hf]
    simp


/-- `markSeen` leaves the key's entry present and marked used. -/
theorem RasterCache.markSeen_marks (cache : RasterCache) (key : RCKey) (v : Bool) :
    ∃ e, ((cache.markSeen key v).1).lookup key = some e ∧
      e.encounteredThisFrame = true := by
  unfold markSeen
  refine ⟨_, lookup_store cache key _, ?_⟩
  split <;> rfl


/-- A key marked seen this frame is still present after `evictUnused`. -/
theorem RasterCache.markSeen_survives_evict (cache : RasterCache) (key : RCKey) (v : Bool) :
    ∃ e, (((cache.markSeen key v).1.evictUnused).lookup key) = some e := by
  obtain ⟨e, hl, he⟩ := markSeen_marks cache key v
  exact ⟨e, evict_seen_present _ key e hl he⟩


/-- `markSeen` on one key does not mark any other key. -/
theorem RasterCache.markSeen_keyUnseen_other (cache : RasterCache) (key k2 : RCKey) (v : Bool)
    (hne : k2 ≠ key) (h : cache.keyUnseen k2) : ((cache.markSeen key v).1).keyUnseen k2 := by
  unfold markSeen keyUnseen store
  intro kv hm hk
  split at hm
  · rw [List.mem_map] at hm
    obtain ⟨kv0, hkv0, hrepl⟩ := hm
    by_cases hx : kv0.1 = key
    · rw [if_pos hx] at hrepl
      rw [← hrepl] at hk
      exact absurd hk hne.symm
    · rw [if_neg hx] at hrepl
      exact h kv (hrepl ▸ hkv0) hk
  · rw [List.mem_append] at hm
    rcases hm with hm | hm
    · exact h kv hm hk
    · rw [List.mem_singleton] at hm
      rw [hm] at hk
      exact absurd hk hne.symm


/-- After `endFrame` every key is unseen (the per-frame marks reset). -/
theorem RasterCache.endFrame_keyUnseen (cache : RasterCache) (key : RCKey) :
    (cache.endFrame).keyUnseen key := by
  unfold endFrame keyUnseen
  intro kv hm _
  simp only [List.mem_map] at hm
  obtain ⟨kv0, _, hkv0⟩ := hm
  rw [← hkv0]


/-- `beginFrame` does not touch the entries. -/
theorem RasterCache.beginFrame_entries (cache : RasterCache) : (cache.beginFrame).entries = cache.entries :=
  rfl


theorem RasterCache.metricsLoop_spec : ∀ (l : List (RCKey × RCEntry)) (acc : RCMetrics),
    metricsLoop l acc =
      ⟨acc.totalCount + (l.filter fun kv => kv.2.image.isSome).length,
       acc.totalBytes + (l.map fun kv => kv.2.image.getD 0).sum⟩ := by
  intro l
  induction l with
  | nil => intro acc; simp [metricsLoop]
  | cons kv t ih =>
    intro acc
    rw [metricsLoop]
    cases himg : kv.2.image with
    | none =>
        rw [ih acc]
        simp [List.filter_cons, himg]
    | some bytes =>
        rw [ih ⟨acc.totalCount + 1, acc.totalBytes + bytes⟩]
        simp [List.filter_cons, himg]
        constructor
        · omega
        · omega


/-- The metrics recomputed by `endFrame` count and sum exactly the
populated entries: unpopulated candidates contribute zero to both. -/
theorem RasterCache.endFrame_metrics (cache : RasterCache) :
    (cache.endFrame).pictureMetrics.totalCount
        = (cache.entries.filter fun kv => kv.2.image.isSome).length ∧
      (cache.endFrame).pictureMetrics.totalBytes
        = (cache.entries.map fun kv => kv.2.image.getD 0).sum := by
  unfold endFrame
  rw [metricsLoop_spec]
  exact ⟨by simp, by simp⟩


theorem sampleItem_frame_step (T cnt cf : ℕ) (M : RCMetrics) (pop : Bool) (hT : T ≠ 0) :
    sampleItem.frame
      { accessThreshold := T, cacheLimitPerFrame := 3, cachedThisFrame := cf,
        entries := [(sampleItem.key, ⟨false, cnt, if pop then some 25600 else none⟩)],
        pictureMetrics := M } =
    ({ accessThreshold := T, cacheLimitPerFrame := 3,
       cachedThisFrame := if T < cnt + 1 ∧ pop = false then 1 else 0,
       entries := [(sampleItem.key, ⟨false, cnt + 1,
         if T < cnt + 1 ∨ pop = true then some 25600 else none⟩)],
       pictureMetrics := if T < cnt + 1 ∨ pop = true then ⟨1, 25600⟩ else ⟨0, 0⟩ },
     if T < cnt + 1 then CacheState.stateCurrent else CacheState.stateNone) := by
  have hworth : (sampleItem.matrix.invertible && sampleItem.worthCaching) = true := by decide
  have hbytes : sampleItem.byteSize = 25600 := rfl
  by_cases hc : T < cnt + 1
  · cases pop with
    | true =>
        simp [RCItem.frame, RCItem.preroll, RCItem.tryToRasterCache, RasterCache.beginFrame,
          RasterCache.markSeen, RasterCache.lookup, RasterCache.store, RasterCache.endFrame,
          RasterCache.generateNewCacheInThisFrame, RasterCache.updateCacheEntry,
          RasterCache.metricsLoop, hworth, hbytes, hT, hc, List.find?]
    | false =>
        simp [RCItem.frame, RCItem.preroll, RCItem.tryToRasterCache, RasterCache.beginFrame,
          RasterCache.markSeen, RasterCache.lookup, RasterCache.store, RasterCache.endFrame,
          RasterCache.generateNewCacheInThisFrame, RasterCache.updateCacheEntry,
          RasterCache.metricsLoop, hworth, hbytes, hT, hc, List.find?]
  · cases pop with
    | true =>
        simp [RCItem.frame, RCItem.preroll, RCItem.tryToRasterCache, RasterCache.beginFrame,
          RasterCache.markSeen, RasterCache.lookup, RasterCache.store, RasterCache.endFrame,
          RasterCache.generateNewCacheInThisFrame, RasterCache.updateCacheEntry,
          RasterCache.metricsLoop, hworth, hbytes, hT, hc, List.find?]
    | false =>
        simp [RCItem.frame, RCItem.preroll, RCItem.tryToRasterCache, RasterCache.beginFrame,
          RasterCache.markSeen, RasterCache.lookup, RasterCache.store, RasterCache.endFrame,
          RasterCache.generateNewCacheInThisFrame, RasterCache.updateCacheEntry,
          RasterCache.metricsLoop, hworth, hbytes, hT, hc, List.find?]


theorem sampleItem_frame_first (T : ℕ) (hT : T ≠ 0) (hT1 : 1 ≤ T) :
    sampleItem.frame (freshCache T) =
    ({ accessThreshold := T, cacheLimitPerFrame := 3, cachedThisFrame := 0,
       entries := [(sampleItem.key, ⟨false, 1, none⟩)],
       pictureMetrics := ⟨0, 0⟩ },
     CacheState.stateNone) := by
  have hworth : (sampleItem.matrix.invertible && sampleItem.worthCaching) = true := by decide
  have hc : ¬ T < 1 := by omega
  simp [RCItem.frame, RCItem.preroll, RCItem.tryToRasterCache, RasterCache.beginFrame,
    RasterCache.markSeen, RasterCache.lookup, RasterCache.store, RasterCache.endFrame,
    RasterCache.generateNewCacheInThisFrame, RasterCache.updateCacheEntry,
    RasterCache.metricsLoop, freshCache, hworth, hT, hc, List.find?]


theorem predCache_step (T k : ℕ) (hT : 1 ≤ T) :
    sampleItem.frame (predCache T k) =
      (predCache T (k + 1),
       if T < k + 1 then CacheState.stateCurrent else CacheState.stateNone) := by
  have hworth : (sampleItem.matrix.invertible && sampleItem.worthCaching) = true := by decide
  have hbytes : sampleItem.byteSize = 25600 := rfl
  have hT0 : T ≠ 0 := by omega
  unfold predCache
  by_cases hpop : T < k
  · have hc : T < k + 1 := by omega
    have hc2 : ¬ (T < k + 1 ∧ k + 1 ≤ T + 1) := by omega
    have hc3 : ¬ k ≤ T := by omega
    simp [RCItem.frame, RCItem.preroll, RCItem.tryToRasterCache, RasterCache.beginFrame,
      RasterCache.markSeen, RasterCache.lookup, RasterCache.store, RasterCache.endFrame,
      RasterCache.generateNewCacheInThisFrame, RasterCache.updateCacheEntry,
      RasterCache.metricsLoop, hworth, hbytes, hT0, hpop, hc, hc2, hc3, List.find?]
  · by_cases hc : T < k + 1
    · have hc2 : T < k + 1 ∧ k + 1 ≤ T + 1 := by omega
      have hc3 : k ≤ T := by omega
      simp [RCItem.frame, RCItem.preroll, RCItem.tryToRasterCache, RasterCache.beginFrame,
        RasterCache.markSeen, RasterCache.lookup, RasterCache.store, RasterCache.endFrame,
        RasterCache.generateNewCacheInThisFrame, RasterCache.updateCacheEntry,
        RasterCache.metricsLoop, hworth, hbytes, hT0, hpop, hc, hc2, hc3, List.find?]
    · have hc2 : ¬ (T < k + 1 ∧ k + 1 ≤ T + 1) := by omega
      have hc3 : k ≤ T := by omega
      simp [RCItem.frame, RCItem.preroll, RCItem.tryToRasterCache, RasterCache.beginFrame,
        RasterCache.markSeen, RasterCache.lookup, RasterCache.store, RasterCache.endFrame,
        RasterCache.generateNewCacheInThisFrame, RasterCache.updateCacheEntry,
        RasterCache.metricsLoop, hworth, hbytes, hT0, hpop, hc, hc2, hc3, List.find?]


/-- The full multi-frame behaviour of the threshold scenario, by
induction over the frames. -/
theorem sampleItem_frames_spec (T : ℕ) (hT : 1 ≤ T) :
    ∀ n, 1 ≤ n → sampleItem.frames n (freshCache T) =
      (predCache T n, if T < n then CacheState.stateCurrent else CacheState.stateNone) := by
  intro n hn
  induction n with
  | zero => omega
  | succ k ih =>
    by_cases hk : 1 ≤ k
    · rw [RCItem.frames, ih hk]
      dsimp only
      rw [predCache_step T k hT]
    · have hk0 : k = 0 := by omega
      subst hk0
      rw [RCItem.frames, RCItem.frames]
      dsimp only
      rw [sampleItem_frame_first T (by omega) hT]
      have h1 : ¬ T < 1 := by omega
      simp [predCache, h1]


theorem predCache0_step (k : ℕ) :
    sampleItem.frame (predCache0 k) = (predCache0 (k + 1), CacheState.stateNone) := by
  have hworth : (sampleItem.matrix.invertible && sampleItem.worthCaching) = true := by decide
  simp [RCItem.frame, RCItem.preroll, RCItem.tryToRasterCache, RasterCache.beginFrame,
    RasterCache.markSeen, RasterCache.lookup, RasterCache.store, RasterCache.endFrame,
    RasterCache.generateNewCacheInThisFrame, RasterCache.updateCacheEntry,
    RasterCache.metricsLoop, predCache0, hworth, List.find?]


theorem sampleItem_frame_first0 :
    sampleItem.frame (freshCache 0) = (predCache0 1, CacheState.stateNone) := by
  have hworth : (sampleItem.matrix.invertible && sampleItem.worthCaching) = true := by decide
  simp [RCItem.frame, RCItem.preroll, RCItem.tryToRasterCache, RasterCache.beginFrame,
    RasterCache.markSeen, RasterCache.lookup, RasterCache.store, RasterCache.endFrame,
    RasterCache.generateNewCacheInThisFrame, RasterCache.updateCacheEntry,
    RasterCache.metricsLoop, predCache0, freshCache, hworth, List.find?]


theorem sampleItem_frames0_spec :
    ∀ n, 1 ≤ n →
      sampleItem.frames n (freshCache 0) = (predCache0 n, CacheState.stateNone) := by
  intro n hn
  induction n with
  | zero => omega
  | succ k ih =>
    by_cases hk : 1 ≤ k
    · rw [RCItem.frames, ih hk]
      dsimp only
      exact predCache0_step k
    · have hk0 : k = 0 := by omega
      subst hk0
      rw [RCItem.frames, RCItem.frames]
      dsimp only
      exact sampleItem_frame_first0


/-- C1 counterexample: the claim says an outstanding opacity composes with
a subsequently applied color filter without forcing an offscreen pass,
regardless of order.  In the code (pinned by
`TEST(LayerStateStack, OpacityAndColorFilterInteraction)` and
`TEST(LayerStateStack, OpacityAndImageFilterInteraction)`), applying a
color filter over an outstanding opacity of 1/2 emits exactly one
saveLayer that resolves the opacity — not zero — and in the opposite
direction an outstanding image filter is resolved by a pass when an
opacity arrives, so the order-independence also fails. -/
theorem c1_resolution_rule_counterexample :
    seqOpacityThenCF.numSaveLayers = 1 ∧
    seqOpacityThenCF.outstanding.opacity = 1 ∧
    seqOpacityThenCF.outstanding.colorFilter = some outerColorFilter ∧
    seqIFThenOpacity.numSaveLayers = 1 ∧
    ¬ (seqOpacityThenCF.numSaveLayers = 0) := by
  decide


/-- C1 (amended): an outstanding opacity composes with a subsequently
applied image filter without a pass, and a color filter composes with a
subsequently applied opacity or image filter without a pass; but a color
filter applied over an outstanding opacity resolves the opacity with
exactly one saveLayer, an outstanding image filter is resolved by exactly
one saveLayer on any subsequent application, and a second color filter or
second image filter while one of the same class is outstanding forces
exactly one saveLayer that resolves (carries) the outstanding one.
Closing the scopes restores the outer state and balances the delegate. -/
theorem c1_resolution_rule_amended :
    (seqOpacityThenIF.numSaveLayers = 0 ∧
      seqOpacityThenIF.outstanding.opacity = 1/2 ∧
      seqOpacityThenIF.outstanding.imageFilter = some outerImageFilter) ∧
    (seqCFThenOpacity.numSaveLayers = 0 ∧
      seqCFThenOpacity.outstanding.colorFilter = some outerColorFilter ∧
      seqCFThenOpacity.outstanding.opacity = 1/2) ∧
    (seqCFThenIF.numSaveLayers = 0 ∧
      seqCFThenIF.outstanding.colorFilter = some outerColorFilter ∧
      seqCFThenIF.outstanding.imageFilter = some innerImageFilter) ∧
    (recordedSaveLayers seqOpacityThenCF = [.saveLayer testRect ⟨1/2, none, none⟩] ∧
      seqOpacityThenCF.outstanding.opacity = 1 ∧
      seqOpacityThenCF.outstanding.colorFilter = some outerColorFilter) ∧
    (recordedSaveLayers seqIFThenOpacity
        = [.saveLayer testRect ⟨1, none, some outerImageFilter⟩] ∧
      seqIFThenOpacity.outstanding.imageFilter = none ∧
      seqIFThenOpacity.outstanding.opacity = 1/2) ∧
    (recordedSaveLayers seqCFThenCF
        = [.saveLayer testRect ⟨1, some outerColorFilter, none⟩] ∧
      seqCFThenCF.outstanding.colorFilter = some innerColorFilter) ∧
    (recordedSaveLayers seqIFThenIF
        = [.saveLayer testRect ⟨1, none, some outerImageFilter⟩] ∧
      seqIFThenIF.outstanding.imageFilter = some innerImageFilter) ∧
    (seqOpacityThenCF.restoreScope.restoreScope.delegateSaveCount = 1 ∧
      seqOpacityThenCF.restoreScope.restoreScope.outstanding = {} ∧
      seqOpacityThenCF.restoreScope.outstanding.opacity = 1/2) := by
  decide


/-- C2: nesting two applyOpacity calls with values a and b in two nested
save scopes yields outstanding opacity a*b; applyState with the opacity
capability bit hands the outstanding opacity to the caller (through
`fill`) without emitting any offscreen pass, while applyState with no
capability bits resolves it by emitting exactly one saveLayer carrying
opacity a*b and resets the outstanding opacity to 1. -/
theorem c2_opacity_composition (a b : ℚ) (ha0 : 0 ≤ a) (ha1 : a < 1)
    (hb0 : 0 ≤ b) (hb1 : b < 1) :
    (opacityNest a b).outstanding.opacity = a * b ∧
    (opacityNest a b).outstanding.saveLayerBounds = testRect ∧
    ((opacityNest a b).applyState kCallerCanApplyOpacity).numSaveLayers = 0 ∧
    ((opacityNest a b).applyState kCallerCanApplyOpacity).outstanding.opacity = a * b ∧
    (((opacityNest a b).applyState kCallerCanApplyOpacity).fill {}).opacity = a * b ∧
    recordedSaveLayers ((opacityNest a b).applyState kNoRenderFlags)
      = [.saveLayer testRect ⟨a * b, none, none⟩] ∧
    ((opacityNest a b).applyState kNoRenderFlags).outstanding.opacity = 1 := by
  have hab : a * b < 1 := by nlinarith [mul_nonneg ha0 hb0]
  refine ⟨?_, ?_, ?_, ?_, ?_, ?_, ?_⟩ <;>
    simp [opacityNest, builderStack, recordedSaveLayers, LayerStateStack.applyOpacity,
      LayerStateStack.save, LayerStateStack.emit, LayerStateStack.applyState,
      LayerStateStack.needsSaveLayer, LayerStateStack.saveLayerResolve,
      LayerStateStack.bumpLayerCount, LayerStateStack.fill, LayerStateStack.numSaveLayers,
      DisplayListBuilder.append, DisplayListBuilder.numSaveLayers, StackAttributes.toPaint,
      kCallerCanApplyOpacity, kNoRenderFlags, ha1, hb1, hab, one_mul]


/-- C2 witness at a = b = 1/2, the values of `TEST(LayerStateStack,
Opacity)`. -/
theorem c2_opacity_composition_witness :
    (opacityNest (1/2) (1/2)).outstanding.opacity = 1/2 * (1/2) ∧
    (opacityNest (1/2) (1/2)).outstanding.saveLayerBounds = testRect ∧
    ((opacityNest (1/2) (1/2)).applyState kCallerCanApplyOpacity).numSaveLayers = 0 ∧
    ((opacityNest (1/2) (1/2)).applyState kCallerCanApplyOpacity).outstanding.opacity
      = 1/2 * (1/2) ∧
    (((opacityNest (1/2) (1/2)).applyState kCallerCanApplyOpacity).fill {}).opacity
      = 1/2 * (1/2) ∧
    recordedSaveLayers ((opacityNest (1/2) (1/2)).applyState kNoRenderFlags)
      = [.saveLayer testRect ⟨1/2 * (1/2), none, none⟩] ∧
    ((opacityNest (1/2) (1/2)).applyState kNoRenderFlags).outstanding.opacity = 1 :=
  c2_opacity_composition (1/2) (1/2) (by norm_num) (by norm_num) (by norm_num) (by norm_num)


/-- C3: scope balance — for every well-nested script of save scopes with
any applyTransform/applyClip/applyOpacity/applyColorFilter/
applyImageFilter calls inside, closing the outermost scope restores the
transform, the device and local cull rectangles, the outstanding opacity,
color filter, image filter and bounds, and the scope stack itself, to
their values from before the outermost save. -/
theorem c3_scope_balance : ∀ (body : StackScript) (ss : LayerStateStack),
    ((StackScript.run body ss.save).restoreScope).current.matrix = ss.current.matrix ∧
    ((StackScript.run body ss.save).restoreScope).current.deviceCull = ss.current.deviceCull ∧
    ((StackScript.run body ss.save).restoreScope).current.localCull = ss.current.localCull ∧
    ((StackScript.run body ss.save).restoreScope).outstanding.opacity
      = ss.outstanding.opacity ∧
    ((StackScript.run body ss.save).restoreScope).outstanding.colorFilter
      = ss.outstanding.colorFilter ∧
    ((StackScript.run body ss.save).restoreScope).outstanding.imageFilter
      = ss.outstanding.imageFilter ∧
    ((StackScript.run body ss.save).restoreScope).outstanding.saveLayerBounds
      = ss.outstanding.saveLayerBounds ∧
    ((StackScript.run body ss.save).restoreScope).frames = ss.frames := by
  intro body ss
  obtain ⟨h1, h2, h3⟩ := StackScript.block_balances body ss
  exact ⟨by rw [h1], by rw [h1], by rw [h1], by rw [h2], by rw [h2], by rw [h2],
    by rw [h2], h3⟩


/-- C4: a container clipping 500x500 with the
antialiased-with-offscreen-pass mode and two non-overlapping
opacity-compatible children reports save-layer (hence opacity)
capability; with the hard-edge mode it reports exactly the opacity bit;
adding the overlapping third child zeroes the capability for the
hard-edge and plain antialias modes, but the save-layer mode stays fully
capable because its own pass absorbs ancestor state; an incompatible
child zeroes the capability of a non-save-layer container; and in
general any ordered overlap of children's paint bounds or any
incompatible mock child zeroes a non-save-layer clip container's flags,
while a save-layer clip container always reports full capability. -/
theorem c4_opacity_inheritance :
    (((Layer.clipRect clipRect500 .antiAliasWithSaveLayer
        (.cons mockChild1 (.cons mockChild2 .nil))).preroll {}).renderableStateFlags
      = kSaveLayerRenderFlags ∧
     ((Layer.clipRect clipRect500 .antiAliasWithSaveLayer
        (.cons mockChild1 (.cons mockChild2 (.cons mockChild3 .nil)))).preroll
          {}).renderableStateFlags = kSaveLayerRenderFlags ∧
     ((Layer.clipRect clipRect500 .antiAliasWithSaveLayer
        (.cons mockChild1 (.cons mockChild2 (.cons mockChild4 .nil)))).preroll
          {}).renderableStateFlags = kSaveLayerRenderFlags) ∧
    (((Layer.clipRect clipRect500 .hardEdge
        (.cons mockChild1 (.cons mockChild2 .nil))).preroll {}).renderableStateFlags
      = kCallerCanApplyOpacity ∧
     ((Layer.clipRect clipRect500 .hardEdge
        (.cons mockChild1 (.cons mockChild2 (.cons mockChild3 .nil)))).preroll
          {}).renderableStateFlags = kNoRenderFlags ∧
     ((Layer.clipRect clipRect500 .antiAlias
        (.cons mockChild1 (.cons mockChild2 (.cons mockChild3 .nil)))).preroll
          {}).renderableStateFlags = kNoRenderFlags ∧
     ((Layer.clipRect clipRect500 .hardEdge
        (.cons mockChild1 (.cons mockChild2 (.cons mockChild4 .nil)))).preroll
          {}).renderableStateFlags = kNoRenderFlags ∧
     kCallerCanApplyOpacity ≠ kNoRenderFlags ∧
     kSaveLayerRenderFlags ≠ kNoRenderFlags) ∧
    (∀ (clip : SkRect) (beh : ClipBehavior) (children : LayerL) (ctx : PrerollCtx)
        (p : SkRect) (pa : DlPaint) (rs : Bool),
      beh.usesSaveLayer = false → LayerL.mem (.mock p pa false rs) children →
      ((Layer.clipRect clip beh children).preroll ctx).renderableStateFlags
        = kNoRenderFlags) ∧
    (∀ (clip : SkRect) (beh : ClipBehavior) (children : LayerL) (ctx : PrerollCtx)
        (x y : Layer),
      beh.usesSaveLayer = false → LayerL.memBefore x y children →
      (Layer.paintBoundsOf x).intersects (Layer.paintBoundsOf y) = true →
      ((Layer.clipRect clip beh children).preroll ctx).renderableStateFlags
        = kNoRenderFlags) ∧
    (∀ (clip : SkRect) (children : LayerL) (ctx : PrerollCtx),
      ((Layer.clipRect clip .antiAliasWithSaveLayer children).preroll
          ctx).renderableStateFlags = kSaveLayerRenderFlags) := by
  refine ⟨by decide, by decide, ?_, ?_, ?_⟩
  · exact Layer.clip_flags_zero_of_incompatible
  · exact Layer.clip_flags_zero_of_overlap
  · exact Layer.clip_saveLayer_flags


/-- C8: Paint on a layer whose most recent Preroll left empty bounds, or
whose region is fully culled, or on which Preroll never ran, fails its
`needs_painting(context)` assertion (modelled as `none`); Paint on a
layer satisfying the precondition saves a scope, applies its clip, draws
the children in order and pops the scope on exit, leaving the scope
stack balanced — in general every successful Paint restores the frame
stack it found. -/
theorem c8_paint_precondition :
    (needsPainting (emptyClipLayer.prerolledBounds true) paintCtxPlain = false ∧
      emptyClipLayer.paint true paintCtxPlain = none) ∧
    (needsPainting (containedChildLayer.prerolledBounds true) culledPaintCtx = false ∧
      containedChildLayer.paint true culledPaintCtx = none ∧
      needsPainting (containedChildLayer.prerolledBounds true) paintCtxPlain = true) ∧
    (needsPainting (containedChildLayer.prerolledBounds false) paintCtxPlain = false ∧
      containedChildLayer.paint false paintCtxPlain = none) ∧
    ((containedChildLayer.paint true fullPaintCtx).map
        (fun ctx => ((ctx.ss.delegate.getD {}).ops, ctx.ss.frames.isEmpty,
          ctx.ss.delegateSaveCount))
      = some ([.save, .clipRect clipBoundsRect false, .drawPath childRect {}, .restore],
          true, 1)) ∧
    (∀ (l : Layer) (pr : Bool) (ctx ctx' : PaintCtx),
      l.paint pr ctx = some ctx' → ctx'.ss.frames = ctx.ss.frames) := by
  refine ⟨by decide, by decide, by decide, by decide, ?_⟩
  exact Layer.paint_frames


/-- C9: during Preroll a readback child leaves the surface-needs-readback
flag true through hard-edge and plain antialias clips, an incoming true
flag always stays true, and the save-layer clip mode with no prior
readback absorbs its child's readback and leaves the flag false — in
general the save-layer clip restores exactly the incoming flag, and a
true incoming flag is monotone through any modelled subtree. -/
theorem c9_readback_propagation :
    (readbackResult .hardEdge .nil false = false ∧
      readbackResult .antiAlias .nil false = false ∧
      readbackResult .antiAliasWithSaveLayer .nil false = false) ∧
    (readbackResult .hardEdge .nil true = true ∧
      readbackResult .antiAlias .nil true = true ∧
      readbackResult .antiAliasWithSaveLayer .nil true = true) ∧
    (readbackResult .hardEdge (.cons nonreaderChild .nil) false = false ∧
      readbackResult .antiAlias (.cons nonreaderChild .nil) false = false ∧
      readbackResult .antiAliasWithSaveLayer (.cons nonreaderChild .nil) false = false) ∧
    (readbackResult .hardEdge (.cons nonreaderChild .nil) true = true ∧
      readbackResult .antiAlias (.cons nonreaderChild .nil) true = true ∧
      readbackResult .antiAliasWithSaveLayer (.cons nonreaderChild .nil) true = true) ∧
    (readbackResult .hardEdge (.cons readerChild .nil) false = true ∧
      readbackResult .antiAlias (.cons readerChild .nil) false = true ∧
      readbackResult .antiAliasWithSaveLayer (.cons readerChild .nil) false = false) ∧
    (readbackResult .hardEdge (.cons readerChild .nil) true = true ∧
      readbackResult .antiAlias (.cons readerChild .nil) true = true ∧
      readbackResult .antiAliasWithSaveLayer (.cons readerChild .nil) true = true) ∧
    (∀ (clip : SkRect) (children : LayerL) (ctx : PrerollCtx),
      ((Layer.clipRect clip .antiAliasWithSaveLayer children).preroll
          ctx).surfaceNeedsReadback = ctx.surfaceNeedsReadback) ∧
    (∀ (l : Layer) (ctx : PrerollCtx), ctx.surfaceNeedsReadback = true →
      (l.preroll ctx).surfaceNeedsReadback = true) := by
  refine ⟨by decide, by decide, by decide, by decide, by decide, by decide, ?_, ?_⟩
  · exact Layer.clip_saveLayer_readback
  · exact Layer.preroll_readback_mono


/-- C10: Preroll has no net effect on the traversal context's render-state
stack: in general, for every modelled layer and context, Preroll
preserves the frame stack, the transform and both cull rectangles (and
the outstanding attributes); in the concrete test scenarios — empty
bounds, culled child, partially visible child — the state stack comes
back exactly equal, empty, with the device and local cull rectangles
untouched. -/
theorem c10_preroll_preserves_state :
    (∀ (l : Layer) (ctx : PrerollCtx),
      (l.preroll ctx).ss.frames = ctx.ss.frames ∧
      (l.preroll ctx).ss.current = ctx.ss.current ∧
      (l.preroll ctx).ss.outstanding = ctx.ss.outstanding) ∧
    ((emptyClipLayer.preroll {}).ss = ({} : PrerollCtx).ss ∧
      (emptyClipLayer.preroll {}).ss.isEmpty = true ∧
      (emptyClipLayer.preroll {}).ss.current.deviceCull = kGiantRect ∧
      emptyClipLayer.paintBoundsOf = SkRect.zero) ∧
    ((outsideChildLayer.preroll outsideCtx).ss = outsideCtx.ss ∧
      (outsideChildLayer.preroll outsideCtx).ss.isEmpty = true ∧
      (outsideChildLayer.preroll outsideCtx).ss.current.deviceCull
        = initialMatrix.mapRect localCullRect ∧
      (outsideChildLayer.preroll outsideCtx).ss.current.localCull = localCullRect ∧
      outsideChildLayer.paintBoundsOf = outsideChildRect.intersectOrEmpty clipBoundsRect) := by
  refine ⟨Layer.preroll_ss, by decide, by decide⟩


/-- C5 counterexample: with threshold T = 2, after exactly N = T = 2
frames requesting the same key and transform, the claim says the entry
has become eligible and been rasterized so that Draw succeeds; in the
code (pinned by `TEST(RasterCache, ThresholdIsRespectedForDisplayList)`,
whose second access still fails) the access count has reached 2 = T yet
the entry is unpopulated and Draw fails. -/
theorem c5_threshold_counterexample :
    (sampleItem.frames 2 (freshCache 2)).1.lookup sampleItem.key
      = some ⟨false, 2, none⟩ ∧
    (sampleItem.frames 2 (freshCache 2)).2 = CacheState.stateNone ∧
    sampleItem.draw (sampleItem.frames 2 (freshCache 2)).2
      (sampleItem.frames 2 (freshCache 2)).1 = false ∧
    ¬ sampleItem.draw (sampleItem.frames 2 (freshCache 2)).2
      (sampleItem.frames 2 (freshCache 2)).1 = true := by
  decide


/-- C5 (amended): with threshold T > 0, requesting the same key and
transform N ≤ T times never populates the entry and Draw fails on each
of those frames; the entry becomes eligible and is rasterized only once
the access count exceeds the threshold (the (T+1)-th request), after
which Draw succeeds, and rasterizing again after population is a no-op
that still satisfies Draw. -/
theorem c5_threshold_amended (T N : ℕ) (hT : 1 ≤ T) (hN : 1 ≤ N) :
    (N ≤ T →
      (sampleItem.frames N (freshCache T)).1.lookup sampleItem.key
          = some ⟨false, N, none⟩ ∧
        sampleItem.draw (sampleItem.frames N (freshCache T)).2
          (sampleItem.frames N (freshCache T)).1 = false) ∧
    (T < N →
      (sampleItem.frames N (freshCache T)).1.lookup sampleItem.key
          = some ⟨false, N, some 25600⟩ ∧
        (sampleItem.frames N (freshCache T)).2 = CacheState.stateCurrent ∧
        sampleItem.draw (sampleItem.frames N (freshCache T)).2
          (sampleItem.frames N (freshCache T)).1 = true ∧
        sampleItem.tryToRasterCache CacheState.stateCurrent
          (sampleItem.frames N (freshCache T)).1
          = ((sampleItem.frames N (freshCache T)).1, true)) := by
  have hspec := sampleItem_frames_spec T hT N hN
  constructor
  · intro hle
    have hnlt : ¬ T < N := by omega
    rw [hspec]
    simp [predCache, RasterCache.lookup, RCItem.draw, hnlt, List.find?]
  · intro hlt
    rw [hspec]
    simp [predCache, RasterCache.lookup, RCItem.draw, RasterCache.draw,
      RCItem.tryToRasterCache, RasterCache.updateCacheEntry, hlt, List.find?]


/-- C5 witness at threshold 2: the third request populates the entry and
Draw succeeds from then on. -/
theorem c5_threshold_amended_witness :
    (sampleItem.frames 3 (freshCache 2)).1.lookup sampleItem.key
        = some ⟨false, 3, some 25600⟩ ∧
      (sampleItem.frames 3 (freshCache 2)).2 = CacheState.stateCurrent ∧
      sampleItem.draw (sampleItem.frames 3 (freshCache 2)).2
        (sampleItem.frames 3 (freshCache 2)).1 = true ∧
      sampleItem.tryToRasterCache CacheState.stateCurrent
        (sampleItem.frames 3 (freshCache 2)).1
        = ((sampleItem.frames 3 (freshCache 2)).1, true) :=
  (c5_threshold_amended 2 3 (by norm_num) (by norm_num)).2 (by norm_num)


/-- C6: with an access threshold of 0 no cache entry is ever populated
and Draw never succeeds, however many frames request the same content —
yet after one frame the access count (1) already exceeds the threshold
(0), so it is the caching policy, not the counter-versus-threshold
comparison, that denies eligibility. -/
theorem c6_zero_threshold_disables (n : ℕ) :
    (sampleItem.frames n (freshCache 0)).2 = CacheState.stateNone ∧
    sampleItem.draw (sampleItem.frames n (freshCache 0)).2
      (sampleItem.frames n (freshCache 0)).1 = false ∧
    ((sampleItem.frames n (freshCache 0)).1.entries.all
      fun kv => kv.2.image = none) = true ∧
    ((sampleItem.frames 1 (freshCache 0)).1.lookup sampleItem.key
        = some ⟨false, 1, none⟩ ∧
      (freshCache 0).accessThreshold < 1) := by
  have hone : (sampleItem.frames 1 (freshCache 0)).1.lookup sampleItem.key
      = some ⟨false, 1, none⟩ ∧ (freshCache 0).accessThreshold < 1 := by
    rw [sampleItem_frames0_spec 1 (by omega)]
    exact ⟨by simp [predCache0, RasterCache.lookup, List.find?], by decide⟩
  by_cases hn : 1 ≤ n
  · rw [sampleItem_frames0_spec n hn]
    exact ⟨rfl, rfl, by simp [predCache0], hone⟩
  · have h0 : n = 0 := by omega
    subst h0
    exact ⟨rfl, rfl, rfl, hone⟩


/-- C7: replaying `TEST(RasterCache, EvitUnusedCacheEntries)` and
`TEST(RasterCache, MetricsOmitUnpopulatedEntries)`: an entry not marked
seen in a frame is gone after that frame's eviction, and the byte
estimate and end-of-frame metrics count only populated, non-evicted
entries — candidates that are not yet rasterized contribute zero.  In
general: a key unseen since the frame began is absent after
`evictUnused`, a key just marked seen survives it, `endFrame` leaves
every key unseen, and the recomputed metrics are exactly the count of
populated entries and the sum of their byte sizes. -/
theorem c7_eviction_and_metrics :
    (c7frame1ev.estimateByteSize = 0 ∧ c7frame1try1.2 = false ∧ c7frame1try2.2 = false ∧
      c7frame1try2.1.estimateByteSize = 0 ∧
      c7frame1done.pictureMetrics = ⟨0, 0⟩ ∧ c7frame1done.estimateByteSize = 0) ∧
    (c7frame2ev.estimateByteSize = 0 ∧ c7frame2try1.2 = true ∧ c7frame2try2.2 = true ∧
      c7frame2try2.1.estimateByteSize = 51200 ∧
      sampleItem.draw c7frame2pre1.2 c7frame2try2.1 = true ∧
      secondItem.draw c7frame2pre2.2 c7frame2try2.1 = true ∧
      c7frame2done.pictureMetrics = ⟨2, 51200⟩) ∧
    (c7frame3ev.estimateByteSize = 25600 ∧
      c7frame3ev.lookup secondItem.key = none ∧
      c7frame3try1.2 = true ∧
      c7frame3done.pictureMetrics = ⟨1, 25600⟩) ∧
    (c7frame4ev.estimateByteSize = 0 ∧ c7frame4done.pictureMetrics = ⟨0, 0⟩ ∧
      c7frame4done.draw sampleItem.key = false ∧
      c7frame4done.draw secondItem.key = false) ∧
    (∀ (cache : RasterCache) (key : RCKey), cache.keyUnseen key →
      (cache.evictUnused).lookup key = none) ∧
    (∀ (cache : RasterCache) (key : RCKey) (v : Bool),
      ∃ e, (((cache.markSeen key v).1.evictUnused).lookup key) = some e) ∧
    (∀ (cache : RasterCache) (key : RCKey), (cache.endFrame).keyUnseen key) ∧
    (∀ (cache : RasterCache),
      (cache.endFrame).pictureMetrics.totalCount
          = (cache.entries.filter fun kv => kv.2.image.isSome).length ∧
        (cache.endFrame).pictureMetrics.totalBytes
          = (cache.entries.map fun kv => kv.2.image.getD 0).sum) := by
  refine ⟨by decide, by decide, by decide, by decide, ?_, ?_, ?_, ?_⟩
  · exact RasterCache.evict_unseen_absent
  · exact RasterCache.markSeen_survives_evict
  · exact RasterCache.endFrame_keyUnseen
  · exact RasterCache.endFrame_metrics


